import Mathlib

/-!
Verification development for the console filter-and-batch-command engine of
`src/console_cmds.cpp` (OpenTTD JGR patchpack fork).

The C code is shallowly embedded: C strings become `List Nat` (byte values),
the intermixed alias/command tables become lists of `StringInfo`, the owned
`MatchInfo` chain becomes a `List Criterion` (head = most recently prepended
criterion), and functions that can hit `assert` / `NOT_REACHED` return
`Option` results, with `none` marking the aborting path.  External game state
(entity pools, group names, company, game mode) is collected in `GameState`.
-/

set_option autoImplicit false

namespace TTD

/-! ## C string primitives -/

/-- ASCII `tolower` on a byte value. -/
def tolowerN (c : Nat) : Nat := if 65 ≤ c ∧ c ≤ 90 then c + 32 else c

/-- A Lean string as the list of its character codes (model of a C string). -/
def strN (s : String) : List Nat := s.data.map Char.toNat

/-- C `stricmp`/`strcasecmp`: case-insensitive comparison, result is the
difference of the first differing lowered characters (0 on equality). -/
def stricmp : List Nat → List Nat → Int
  | [], [] => 0
  | [], c :: _ => 0 - (tolowerN c : Int)
  | c :: _, [] => (tolowerN c : Int)
  | a :: s1, b :: s2 =>
    if tolowerN a = tolowerN b then stricmp s1 s2
    else (tolowerN a : Int) - (tolowerN b : Int)

/-- Final tests of the C `str_isprefix` after its scan loop stops: `s1e`, `s2e`
are the unscanned tails and `pos` records whether the common part is nonempty. -/
def str_isprefix_end (s1e s2e : List Nat) (pos : Bool) : Bool :=
  if s2e = [] ∧ s1e ≠ [] then false
  else if pos ∧ s1e = [] then true
  else false

/-- Scan loop of `str_isprefix`: advance while both strings continue and agree
case-insensitively. -/
def str_isprefix_go : Bool → List Nat → List Nat → Bool
  | pos, a :: t1, b :: t2 =>
    if tolowerN a = tolowerN b then str_isprefix_go true t1 t2
    else str_isprefix_end (a :: t1) (b :: t2) pos
  | pos, s1, s2 => str_isprefix_end s1 s2 pos

/-- C `str_isprefix`: true iff the first string is a nonempty case-insensitive
prefix of (or equal to) the second string. -/
def str_isprefix (s1 s2 : List Nat) : Bool := str_isprefix_go false s1 s2

/-! ## Integer parsing -/

def isDigitN (c : Nat) : Bool := decide (48 ≤ c ∧ c ≤ 57)

def digitsVal : List Nat → Nat → Nat
  | [], acc => acc
  | c :: r, acc => digitsVal r (acc * 10 + (c - 48))

/-- Modelled from the spec: `GetArgumentInteger` is declared outside the given
sources; per the spec, a criterion literal or argument is "parsed as an
integer" with an invalid parse reported as failure.  Modelled as `strtoul` on
decimal input: read the leading digit run, fail iff it is empty. -/
def GetArgumentInteger (s : List Nat) : Option Nat :=
  let ds := s.takeWhile isDigitN
  if ds = [] then none else some (digitsVal ds 0)

/-- Modelled from the spec: `GetArgumentSignedInteger` is declared outside the
given sources; modelled as `strtol` on decimal input with an optional leading
minus sign, failing iff no digits follow. -/
def GetArgumentSignedInteger (s : List Nat) : Option Int :=
  match s with
  | 45 :: r => (GetArgumentInteger r).map (fun n => -(n : Int))
  | _ => (GetArgumentInteger s).map (fun n => (n : Int))

/-- C `atoi` (used by the generic town/industry match): optional sign followed
by a digit run; returns 0 when there are no digits. -/
def atoiN (s : List Nat) : Int :=
  match s with
  | 45 :: r => -(digitsVal (r.takeWhile isDigitN) 0 : Int)
  | 43 :: r => (digitsVal (r.takeWhile isDigitN) 0 : Int)
  | _ => (digitsVal (s.takeWhile isDigitN) 0 : Int)

/-- `GetArgumentMoney` from the source: `strtoull` with success iff at least
one character was consumed; modelled on decimal input. -/
def GetArgumentMoney (s : List Nat) : Option Nat :=
  let ds := s.takeWhile isDigitN
  if ds = [] then none else some (digitsVal ds 0)

/-- Reduction of a value to `uint32`, used where C converts to the `uint32`
parameter of `NumericValueSubMatch`. -/
def toU32 (i : Int) : Nat := (i % ((2 : Int) ^ 32)).toNat

/-- Reduction of an unsigned parse result to the signed 64-bit `Money` type. -/
def toI64 (n : Nat) : Int :=
  let r : Nat := n % 2 ^ 64
  if r < 2 ^ 63 then (r : Int) else (r : Int) - 2 ^ 64

/-! ## Identifiers and bitmasks (`console_cmds.cpp` enums and constants) -/

/-- Identifier of alias entries in the tables. -/
def LIST_ALIAS : Int := -1

-- MatchType (enum order of the source; 0 is MATCH_INVALID)
def MATCH_INVALID : Int := 0
def MATCH_GENERIC : Int := 1
def MATCH_ALL : Int := 2
def MATCH_GROUP : Int := 3
def MATCH_CRASHED : Int := 4
def MATCH_LENGTH : Int := 5
def MATCH_WAGONS : Int := 6
def MATCH_ORDERS : Int := 7
def MATCH_SPEED : Int := 8
def MATCH_AGE : Int := 9
def MATCH_BREAKDOWNS : Int := 10
def MATCH_MAXSPEED : Int := 11
def MATCH_PROFIT : Int := 12
def MATCH_PROFIT_THIS : Int := 13
def MATCH_PROFIT_LAST : Int := 14
def MATCH_SERVICE : Int := 15
def MATCH_IN_DEPOT : Int := 16
def MATCH_BROKEN : Int := 17
def MATCH_TOWN_POPULATION : Int := 18
def MATCH_TOWN_HOUSES : Int := 19
def MATCH_TOWN_RATING : Int := 20
def MATCH_TOWN_STATUE : Int := 21
def MATCH_TOWN_NO_STATUE : Int := 22
def MATCH_TOWN_FUNDING : Int := 23
def MATCH_TOWN_ROADWORKS : Int := 24
def MATCH_TOWN_EXCLUSIVE_COMPANY : Int := 25
def MATCH_TOWN_EXCLUSIVE_MONTHS : Int := 26
def MATCH_TOWN_EXCLUSIVE_MY_MONTHS : Int := 27
def MATCH_TOWN_EXCLUSIVE_OTHERS_MONTHS : Int := 28
def MATCH_TOWN_UNWANTED_MONTHS : Int := 29
def MATCH_TOWN_NOISE : Int := 30
def MATCH_TOWN_NOISE_REMAIN : Int := 31
def MATCH_TOWN_NOISE_MAX : Int := 32
def MATCH_INDUSTRY_PRODUCTION : Int := 33
def MATCH_INDUSTRY_PRODUCTION_THIS : Int := 34
def MATCH_INDUSTRY_PERCENT : Int := 35
def MATCH_INDUSTRY_PERCENT_THIS : Int := 36

-- MatchSubtype
def MATCH_NONE : Int := 0
def MATCH_NOT_EQUAL : Int := 1
def MATCH_EQUAL : Int := 2
def MATCH_LESS : Int := 3
def MATCH_LESS_OR_EQUAL : Int := 4
def MATCH_GREATER_OR_EQUAL : Int := 5
def MATCH_GREATER : Int := 6

-- VehicleCommand
def VEHICLE_INVALID_COMMAND : Int := 0
def VEHICLE_CENTER : Int := 1
def VEHICLE_CLONE : Int := 2
def VEHICLE_CLONE_SHARED : Int := 3
def VEHICLE_DEPOT : Int := 4
def TRAIN_IGNORE : Int := 5
def TRAIN_WAGON_INFO : Int := 6
def TRAIN_SELL_WAGON : Int := 7
def VEHICLE_INFO : Int := 8
def VEHICLE_LEAVE_STATION : Int := 9
def VEHICLE_OPEN : Int := 10
def VEHICLE_SELL : Int := 11
def VEHICLE_SERVICE : Int := 12
def VEHICLE_SKIP_ORDER : Int := 13
def VEHICLE_START : Int := 14
def VEHICLE_STOP : Int := 15
def VEHICLE_TURN : Int := 16
def VEHICLE_INTERVAL : Int := 17
def VEHICLE_UNDEPOT : Int := 18
def VEHICLE_UNSERVICE : Int := 19
def VEHICLE_COUNT : Int := 20

-- TownCommand
def TOWN_INVALID_COMMAND : Int := 0
def TOWN_CENTER : Int := 1
def TOWN_INFO : Int := 2
def TOWN_PRINT : Int := 3
def TOWN_OPEN : Int := 4
def TOWN_OPEN_AUTH : Int := 5
def TOWN_ACTION_AD_SMALL : Int := 6
def TOWN_ACTION_AD_MEDIUM : Int := 7
def TOWN_ACTION_AD_LARGE : Int := 8
def TOWN_ACTION_ROAD : Int := 9
def TOWN_ACTION_STATUE : Int := 10
def TOWN_ACTION_FUND : Int := 11
def TOWN_ACTION_EXCLUSIVE : Int := 12
def TOWN_ACTION_BRIBE : Int := 13
def TOWN_EXPAND : Int := 14
def TOWN_DELETE : Int := 15
def TOWN_COUNT : Int := 16

/-- First available town action. -/
def TOWN_ACTION_0 : Int := TOWN_ACTION_AD_SMALL

-- IndustryCommand
def INDUSTRY_INVALID_COMMAND : Int := 0
def INDUSTRY_CENTER : Int := 1
def INDUSTRY_INFO : Int := 2
def INDUSTRY_OPEN : Int := 3
def INDUSTRY_COUNT : Int := 4
def INDUSTRY_DELETE : Int := 5

-- Bitmask for StringInfo.req
def FOR_TRAIN : Nat := 0x01
def FOR_ROAD : Nat := 0x02
def FOR_SHIP : Nat := 0x04
def FOR_AIRCRAFT : Nat := 0x08
def NOT_CRASHED : Nat := 0x10
def IN_DEPOT : Nat := 0x20
def STOPPED : Nat := 0x40
def IS_ALIAS : Nat := 0x80
def FOR_VEHICLE : Nat := FOR_TRAIN ||| FOR_ROAD ||| FOR_SHIP ||| FOR_AIRCRAFT
def FOR_TOWN : Nat := 0x100
def FOR_INDUSTRY : Nat := 0x200
def USE_PRINTF : Nat := 0x400
def IN_EDITOR : Nat := 0x800

-- Vehicle types (external `VehicleType`)
def VEH_TRAIN : Nat := 0
def VEH_ROAD : Nat := 1
def VEH_SHIP : Nat := 2
def VEH_AIRCRAFT : Nat := 3
def VEH_INVALID : Nat := 255

-- Vehicle status bits (external `VehStatus`)
def VS_STOPPED : Nat := 0x02
def VS_CRASHED : Nat := 0x80

-- Order types (external `OrderType`)
def OT_GOTO_DEPOT : Nat := 2
def OT_LOADING : Nat := 3

-- Vehicle list kinds (external `VehicleListType`)
def VL_STANDARD : Nat := 0
def VL_GROUP_LIST : Nat := 4

/-- External invalid company marker. -/
def INVALID_COMPANY : Nat := 255

/-! ## Symbol tables

`StringInfo<T>` with the identifier widened to `Int` so that the alias
sentinel (-1) and invalid id (0) keep the C truthiness conventions.  The
unused `help` text field of the source records is omitted. -/

structure StringInfo where
  id : Int
  name : List Nat
  params : Nat
  req : Nat
deriving DecidableEq

/-- `veh_commands`: every alias entry directly precedes its command. -/
def veh_commands : List StringInfo := [
  ⟨LIST_ALIAS, strN "centre", 0, 0⟩,
  ⟨VEHICLE_CENTER, strN "center", 0, FOR_VEHICLE⟩,
  ⟨VEHICLE_CLONE, strN "clone", 0, FOR_VEHICLE ||| IN_DEPOT⟩,
  ⟨VEHICLE_CLONE_SHARED, strN "clone_shared", 0, FOR_VEHICLE ||| IN_DEPOT⟩,
  ⟨VEHICLE_COUNT, strN "count", 0, FOR_VEHICLE⟩,
  ⟨VEHICLE_DEPOT, strN "depot", 0, FOR_VEHICLE ||| NOT_CRASHED⟩,
  ⟨TRAIN_IGNORE, strN "ignore", 0, FOR_TRAIN ||| NOT_CRASHED⟩,
  ⟨VEHICLE_INFO, strN "info", 0, FOR_VEHICLE⟩,
  ⟨VEHICLE_INTERVAL, strN "interval", 1, FOR_VEHICLE ||| NOT_CRASHED⟩,
  ⟨VEHICLE_LEAVE_STATION, strN "leave", 0, FOR_VEHICLE ||| NOT_CRASHED⟩,
  ⟨LIST_ALIAS, strN "show", 0, 0⟩,
  ⟨VEHICLE_OPEN, strN "open", 0, FOR_VEHICLE⟩,
  ⟨VEHICLE_SELL, strN "sell", 0, FOR_VEHICLE ||| STOPPED ||| IN_DEPOT⟩,
  ⟨VEHICLE_SERVICE, strN "service", 0, FOR_VEHICLE ||| NOT_CRASHED⟩,
  ⟨VEHICLE_SKIP_ORDER, strN "skip", 0, FOR_VEHICLE ||| NOT_CRASHED⟩,
  ⟨LIST_ALIAS, strN "go", 0, 0⟩,
  ⟨VEHICLE_START, strN "start", 0, FOR_VEHICLE ||| NOT_CRASHED⟩,
  ⟨VEHICLE_STOP, strN "stop", 0, FOR_VEHICLE ||| NOT_CRASHED⟩,
  ⟨LIST_ALIAS, strN "reverse", 0, 0⟩,
  ⟨VEHICLE_TURN, strN "turn", 0, FOR_TRAIN ||| FOR_ROAD ||| NOT_CRASHED⟩,
  ⟨VEHICLE_UNSERVICE, strN "unservice", 0, FOR_VEHICLE ||| NOT_CRASHED⟩,
  ⟨VEHICLE_UNDEPOT, strN "undepot", 0, FOR_VEHICLE ||| NOT_CRASHED⟩,
  ⟨TRAIN_WAGON_INFO, strN "winfo", 0, FOR_TRAIN⟩,
  ⟨TRAIN_SELL_WAGON, strN "wsell", 1, FOR_TRAIN ||| STOPPED ||| IN_DEPOT⟩]

/-- `town_commands`. -/
def town_commands : List StringInfo := [
  ⟨LIST_ALIAS, strN "centre", 0, 0⟩,
  ⟨TOWN_CENTER, strN "center", 0, FOR_TOWN⟩,
  ⟨TOWN_COUNT, strN "count", 0, FOR_TOWN⟩,
  ⟨TOWN_INFO, strN "info", 0, FOR_TOWN⟩,
  ⟨TOWN_PRINT, strN "print", 0, FOR_TOWN⟩,
  ⟨LIST_ALIAS, strN "show", 0, 0⟩,
  ⟨TOWN_OPEN, strN "open", 0, FOR_TOWN⟩,
  ⟨TOWN_OPEN_AUTH, strN "auth", 0, FOR_TOWN⟩,
  ⟨LIST_ALIAS, strN "small_ad", 0, 0⟩,
  ⟨TOWN_ACTION_AD_SMALL, strN "ad_small", 0, FOR_TOWN⟩,
  ⟨LIST_ALIAS, strN "medium_ad", 0, 0⟩,
  ⟨TOWN_ACTION_AD_MEDIUM, strN "ad_medium", 0, FOR_TOWN⟩,
  ⟨LIST_ALIAS, strN "large_ad", 0, 0⟩,
  ⟨TOWN_ACTION_AD_LARGE, strN "ad_large", 0, FOR_TOWN⟩,
  ⟨LIST_ALIAS, strN "reconstruction", 0, 0⟩,
  ⟨TOWN_ACTION_ROAD, strN "road", 0, FOR_TOWN⟩,
  ⟨TOWN_ACTION_STATUE, strN "statue", 0, FOR_TOWN⟩,
  ⟨LIST_ALIAS, strN "building", 0, 0⟩,
  ⟨TOWN_ACTION_FUND, strN "fund", 0, FOR_TOWN⟩,
  ⟨TOWN_ACTION_EXCLUSIVE, strN "exclusive", 0, FOR_TOWN⟩,
  ⟨TOWN_ACTION_BRIBE, strN "bribe", 0, FOR_TOWN⟩,
  ⟨TOWN_EXPAND, strN "expand", 0, FOR_TOWN ||| IN_EDITOR⟩,
  ⟨TOWN_DELETE, strN "delete", 0, FOR_TOWN ||| IN_EDITOR⟩]

/-- `ind_commands`. -/
def ind_commands : List StringInfo := [
  ⟨LIST_ALIAS, strN "centre", 0, 0⟩,
  ⟨INDUSTRY_CENTER, strN "center", 0, FOR_INDUSTRY⟩,
  ⟨INDUSTRY_COUNT, strN "count", 0, FOR_INDUSTRY⟩,
  ⟨INDUSTRY_INFO, strN "info", 0, FOR_INDUSTRY⟩,
  ⟨LIST_ALIAS, strN "show", 0, 0⟩,
  ⟨INDUSTRY_OPEN, strN "open", 0, FOR_INDUSTRY⟩,
  ⟨INDUSTRY_DELETE, strN "delete", 0, FOR_INDUSTRY⟩]

/-- `match_nn_info`: the non-numeric (special keyword) match table. -/
def match_nn_info : List StringInfo := [
  ⟨MATCH_ALL, strN "all", 0, FOR_VEHICLE ||| FOR_INDUSTRY ||| FOR_TOWN ||| USE_PRINTF⟩,
  ⟨MATCH_ALL, strN "*", 0, FOR_VEHICLE ||| FOR_INDUSTRY ||| FOR_TOWN ||| USE_PRINTF⟩,
  ⟨MATCH_BROKEN, strN "broken", 0, FOR_VEHICLE ||| USE_PRINTF⟩,
  ⟨MATCH_CRASHED, strN "crashed", 0, FOR_VEHICLE ||| USE_PRINTF⟩,
  ⟨MATCH_IN_DEPOT, strN "depot", 0, FOR_VEHICLE ||| USE_PRINTF⟩,
  ⟨MATCH_TOWN_STATUE, strN "statue", 0, FOR_TOWN⟩,
  ⟨MATCH_TOWN_NO_STATUE, strN "no_statue", 0, FOR_TOWN⟩]

/-- `match_info`: the numeric match-keyword table. -/
def match_info : List StringInfo := [
  ⟨MATCH_AGE, strN "age", 0, FOR_VEHICLE⟩,
  ⟨MATCH_BREAKDOWNS, strN "breakdowns", 0, FOR_VEHICLE⟩,
  ⟨MATCH_LENGTH, strN "len", 0, FOR_TRAIN⟩,
  ⟨MATCH_MAXSPEED, strN "maxspeed", 0, FOR_VEHICLE⟩,
  ⟨MATCH_ORDERS, strN "orders", 0, FOR_VEHICLE⟩,
  ⟨MATCH_GROUP, strN "group", 0, FOR_VEHICLE⟩,
  ⟨MATCH_PROFIT, strN "profit", 0, FOR_VEHICLE⟩,
  ⟨MATCH_PROFIT_THIS, strN "profit_this", 0, FOR_VEHICLE⟩,
  ⟨MATCH_PROFIT_LAST, strN "profit_last", 0, FOR_VEHICLE⟩,
  ⟨MATCH_SERVICE, strN "service", 0, FOR_VEHICLE⟩,
  ⟨MATCH_SPEED, strN "speed", 0, FOR_VEHICLE⟩,
  ⟨MATCH_WAGONS, strN "wagons", 0, FOR_TRAIN⟩,
  ⟨MATCH_TOWN_POPULATION, strN "population", 0, FOR_TOWN⟩,
  ⟨MATCH_TOWN_HOUSES, strN "houses", 0, FOR_TOWN⟩,
  ⟨MATCH_TOWN_RATING, strN "rating", 0, FOR_TOWN⟩,
  ⟨MATCH_TOWN_NOISE, strN "currnoise", 0, FOR_TOWN⟩,
  ⟨MATCH_TOWN_NOISE_REMAIN, strN "noise", 0, FOR_TOWN⟩,
  ⟨MATCH_TOWN_NOISE_MAX, strN "maxnoise", 0, FOR_TOWN⟩,
  ⟨MATCH_TOWN_FUNDING, strN "fund", 0, FOR_TOWN⟩,
  ⟨MATCH_TOWN_ROADWORKS, strN "roadworks", 0, FOR_TOWN⟩,
  ⟨MATCH_TOWN_EXCLUSIVE_COMPANY, strN "exclusive", 0, FOR_TOWN⟩,
  ⟨MATCH_TOWN_EXCLUSIVE_MONTHS, strN "any_exclusive", 0, FOR_TOWN⟩,
  ⟨MATCH_TOWN_EXCLUSIVE_MY_MONTHS, strN "my_exclusive", 0, FOR_TOWN⟩,
  ⟨MATCH_TOWN_EXCLUSIVE_OTHERS_MONTHS, strN "other_exclusive", 0, FOR_TOWN⟩,
  ⟨MATCH_TOWN_UNWANTED_MONTHS, strN "unwanted", 0, FOR_TOWN⟩,
  ⟨MATCH_INDUSTRY_PRODUCTION, strN "production", 0, FOR_INDUSTRY⟩,
  ⟨MATCH_INDUSTRY_PRODUCTION_THIS, strN "thisproduction", 0, FOR_INDUSTRY⟩,
  ⟨MATCH_INDUSTRY_PERCENT, strN "percent", 0, FOR_INDUSTRY⟩,
  ⟨MATCH_INDUSTRY_PERCENT_THIS, strN "thispercent", 0, FOR_INDUSTRY⟩]

/-- Invalid command / match records. -/
def INVALID_COMMAND_VEHICLE : StringInfo := ⟨VEHICLE_INVALID_COMMAND, [], 0, 0⟩
def INVALID_COMMAND_TOWN : StringInfo := ⟨TOWN_INVALID_COMMAND, [], 0, 0⟩
def INVALID_COMMAND_INDUSTRY : StringInfo := ⟨INDUSTRY_INVALID_COMMAND, [], 0, 0⟩
def INVALID_MATCH : StringInfo := ⟨MATCH_INVALID, [], 0, 0⟩

/-! ## `GetStringInfo`: the three-tier resolver -/

/-- The forward scan past alias sentinels: from the current table position,
skip entries whose id is `LIST_ALIAS` and return the first real entry (the
`real_i` computation of the source).  Falls back to the invalid record if the
scan runs off the table, which well-formed tables never do. -/
def firstReal (invalid : StringInfo) (l : List StringInfo) : StringInfo :=
  match l.dropWhile (fun e => e.id == LIST_ALIAS) with
  | [] => invalid
  | r :: _ => r

/-- Main loop of `GetStringInfo`: `cmd` is the prefix candidate found so far,
`uniq` the `unique_prefix` flag. -/
def gsiGo (q : List Nat) (invalid : StringInfo) :
    List StringInfo → StringInfo → Bool → StringInfo
  | [], cmd, uniq => if cmd.id ≠ 0 ∧ uniq then cmd else invalid
  | e :: rest, cmd, uniq =>
    let real := firstReal invalid (e :: rest)
    if stricmp q e.name = 0 then real
    else if str_isprefix q e.name = true ∧ real.id ≠ cmd.id then
      gsiGo q invalid rest real (if cmd.id ≠ 0 then false else uniq)
    else gsiGo q invalid rest cmd uniq

/-- `GetStringInfo`: resolve `q` against a table; exact case-insensitive match
wins immediately, otherwise a unique case-insensitive prefix match. -/
def GetStringInfo (q : List Nat) (invalid : StringInfo) (arr : List StringInfo) : StringInfo :=
  gsiGo q invalid arr invalid true

def GetVehicleCommand (q : List Nat) : StringInfo :=
  GetStringInfo q INVALID_COMMAND_VEHICLE veh_commands

def GetTownCommand (q : List Nat) : StringInfo :=
  GetStringInfo q INVALID_COMMAND_TOWN town_commands

def GetIndustryCommand (q : List Nat) : StringInfo :=
  GetStringInfo q INVALID_COMMAND_INDUSTRY ind_commands

def GetMatchType (q : List Nat) : StringInfo :=
  GetStringInfo q INVALID_MATCH match_info

/-! ## Filter criteria and the chain builder (`CheckMatch`) -/

/-- One parsed filter criterion (the payload of the C `MatchInfo` node); a
chain is a `List Criterion` whose head is the most recently prepended node,
mirroring the `next` links. -/
structure Criterion where
  type : Int
  subtype : Int
  id : List Nat
deriving DecidableEq

/-- Index of the first `<`, `>` or `=` in the token (C `strcspn(match_id, "<>=")`). -/
def strcspnOps : List Nat → Nat
  | [] => 0
  | c :: rest => if c = 60 ∨ c = 61 ∨ c = 62 then 0 else 1 + strcspnOps rest

/-- Operator parsing step of `CheckMatch`: from the token split at the first
operator character, compute the match subtype and the literal (the id pointer
after the operator).  Without an operator the literal is the whole token. -/
def opSplit (tok : List Nat) : Int × List Nat :=
  let keylen := strcspnOps tok
  match tok.drop keylen with
  | 61 :: rest => (MATCH_EQUAL, rest)
  | 60 :: 61 :: rest => (MATCH_LESS_OR_EQUAL, rest)
  | 60 :: 62 :: rest => (MATCH_NOT_EQUAL, rest)
  | 60 :: rest => (MATCH_LESS, rest)
  | 62 :: 61 :: rest => (MATCH_GREATER_OR_EQUAL, rest)
  | 62 :: rest => (MATCH_GREATER, rest)
  | _ => (MATCH_NONE, tok)

/-- `CheckMatch(const char *match_id, int mask)`: classify one filter token.
`none` models the NULL return after the "invalid match type for this query"
console error. -/
def CheckMatch (match_id : List Nat) (mask : Nat) : Option Criterion :=
  let keylen := strcspnOps match_id
  let st := opSplit match_id
  let match_subtype := st.1
  let id := st.2
  let key_type : Option Int :=
    if keylen ≠ 0 then
      let mtch := GetMatchType (match_id.take keylen)
      if mtch.id ≠ 0 then
        if mtch.req &&& mask = 0 then none else some mtch.id
      else some MATCH_GENERIC
    else some MATCH_GENERIC
  match key_type with
  | none => none
  | some mt =>
    let match_type :=
      match match_nn_info.find? (fun e =>
          e.req &&& mask ≠ 0 ∧ stricmp match_id e.name = 0) with
      | some e => e.id
      | none => mt
    some ⟨match_type, match_subtype, id⟩

/-- Loop of `CheckMatch(byte &argc, char** &argv, int mask)`: consume filter
tokens joined by "and"/"&", prepending each criterion; returns the chain and
the remaining arguments (the command and its parameters). -/
def cmLoop (mask : Nat) : List (List Nat) → List Criterion →
    Option (List Criterion × List (List Nat))
  | [], m => some (m, [])
  | tok :: rest, m =>
    match CheckMatch tok mask with
    | none => none
    | some c =>
      match rest with
      | [] => some (c :: m, [])
      | nxt :: rest2 =>
        if stricmp nxt (strN "and") = 0 ∨ stricmp nxt (strN "&") = 0 then
          cmLoop mask rest2 (c :: m)
        else some (c :: m, nxt :: rest2)

/-- `CheckMatch` over the argument vector: requires `<name> <match> <command>`,
skips the command name, then runs the token loop. -/
def CheckMatchArgs (args : List (List Nat)) (mask : Nat) :
    Option (List Criterion × List (List Nat)) :=
  if args.length < 3 then none
  else cmLoop mask args.tail []

/-! ## Entities and game state

The entity classes live outside the given sources; each record carries
exactly the attributes the console code reads, with externally rendered
display names (`GetString`) as plain fields. -/

/-- One part of a train's `Next()` chain (the head vehicle is the first part). -/
structure TrainPart where
  index : Nat
  articulated : Bool
deriving DecidableEq

/-- The fields of `current_order` read by the vehicle commands. -/
structure VOrder where
  otype : Nat
  halt_in_depot : Bool
  index : Nat
deriving DecidableEq

structure Vehicle where
  index : Nat
  vtype : Nat
  unitnumber : Nat
  vehstatus : Nat
  breakdown_ctr : Nat
  in_depot : Bool
  service_interval : Nat
  cur_speed : Nat
  num_orders : Nat
  age : Nat
  max_age : Nat
  breakdowns_since_last_service : Nat
  cached_max_speed : Nat
  gcache_total_length : Nat
  parts : List TrainPart
  profit_this_year : Int
  profit_last_year : Int
  group_id : Nat
  current_order : VOrder
  owner : Nat
deriving DecidableEq

structure Town where
  index : Nat
  name : List Nat
  population : Nat
  num_houses : Nat
  ratings : Nat → Int
  noise_reached : Nat
  max_town_noise : Nat
  fund_buildings_months : Nat
  road_build_months : Nat
  exclusivity : Nat
  exclusive_counter : Nat
  statues : Nat
  unwanted : Nat → Nat

structure Industry where
  index : Nat
  town_name : List Nat
  last_month_production : Nat × Nat
  last_month_transported : Nat × Nat
  this_month_production : Nat × Nat
  this_month_transported : Nat × Nat
deriving DecidableEq

structure Group where
  index : Nat
  owner : Nat
  name : List Nat
deriving DecidableEq

/-- External state read by the console code: the entity pools, the local
company, the game mode, plus models of the remaining external inputs (the
initial contents of the uninitialized name buffer in `GetGroupByName`, the
`InteractiveRandom` value and the service-interval clamp). -/
structure GameState where
  towns : List Town
  industries : List Industry
  vehicles : List Vehicle
  groups : List Group
  local_company : Nat
  local_company_valid : Bool
  game_mode_editor : Bool
  buf0 : List Nat
  interactive_random : Int
  service_clamp : Int → Nat → Int

/-! ## Numeric / money / string comparison helpers -/

/-- `NumericMatch` on unsigned 32-bit values; the default branch of the C
switch is `NOT_REACHED()`, modelled as `none`. -/
def NumericMatch (value : Nat) (subtype : Int) (target_value : Nat) : Option Bool :=
  if subtype = MATCH_EQUAL then some (decide (value = target_value))
  else if subtype = MATCH_NOT_EQUAL then some (decide (value ≠ target_value))
  else if subtype = MATCH_LESS then some (decide (value < target_value))
  else if subtype = MATCH_LESS_OR_EQUAL then some (decide (value ≤ target_value))
  else if subtype = MATCH_GREATER_OR_EQUAL then some (decide (value ≥ target_value))
  else if subtype = MATCH_GREATER then some (decide (value > target_value))
  else none

/-- `NumericMatch` instantiated at signed values (`Money`, `strcasecmp` results). -/
def NumericMatchI (value : Int) (subtype : Int) (target_value : Int) : Option Bool :=
  if subtype = MATCH_EQUAL then some (decide (value = target_value))
  else if subtype = MATCH_NOT_EQUAL then some (decide (value ≠ target_value))
  else if subtype = MATCH_LESS then some (decide (value < target_value))
  else if subtype = MATCH_LESS_OR_EQUAL then some (decide (value ≤ target_value))
  else if subtype = MATCH_GREATER_OR_EQUAL then some (decide (value ≥ target_value))
  else if subtype = MATCH_GREATER then some (decide (value > target_value))
  else none

/-- `NumericValueSubMatch`: parse the target and compare; an unparsable
target makes the predicate false. -/
def NumericValueSubMatch (value : Nat) (subtype : Int) (target_value_str : List Nat) :
    Option Bool :=
  match GetArgumentInteger target_value_str with
  | none => some false
  | some t => NumericMatch value subtype (t % 2 ^ 32)

/-- `MoneyValueSubMatch`. -/
def MoneyValueSubMatch (value : Int) (subtype : Int) (target_value_str : List Nat) :
    Option Bool :=
  match GetArgumentMoney target_value_str with
  | none => some false
  | some t => NumericMatchI value subtype (toI64 t)

/-- `StringValueSubMatch`: case-insensitive lexicographic comparison reduced
to the numeric comparison switch. -/
def StringValueSubMatch (value : List Nat) (subtype : Int) (target_value : List Nat) :
    Option Bool :=
  NumericMatchI (stricmp value target_value) subtype 0

/-- `CountWagons`: walk the `Next()` chain counting every part. -/
def CountWagons : List TrainPart → Nat
  | [] => 0
  | _ :: r => 1 + CountWagons r

/-! ## Entity matchers -/

/-- Evaluation of a single criterion against a vehicle (the `switch` body of
`VehicleMatches`): `none` models the `assert` in the wagon-count case and the
`NOT_REACHED()` default. -/
def VehicleMatches1 (gs : GameState) (v : Vehicle) (m : Criterion) : Option Bool :=
  if m.type = MATCH_ALL then some true
  else if m.type = MATCH_CRASHED then some (decide (v.vehstatus &&& VS_CRASHED = VS_CRASHED))
  else if m.type = MATCH_BROKEN then some (decide (v.breakdown_ctr ≠ 0))
  else if m.type = MATCH_IN_DEPOT then some v.in_depot
  else if m.type = MATCH_SERVICE then NumericValueSubMatch v.service_interval m.subtype m.id
  else if m.type = MATCH_SPEED then NumericValueSubMatch v.cur_speed m.subtype m.id
  else if m.type = MATCH_ORDERS then NumericValueSubMatch v.num_orders m.subtype m.id
  else if m.type = MATCH_AGE then NumericValueSubMatch (v.age / 365) m.subtype m.id
  else if m.type = MATCH_BREAKDOWNS then
    NumericValueSubMatch v.breakdowns_since_last_service m.subtype m.id
  else if m.type = MATCH_MAXSPEED then
    -- both branches of the source read the same cached field
    if v.vtype = VEH_TRAIN then NumericValueSubMatch v.cached_max_speed m.subtype m.id
    else NumericValueSubMatch v.cached_max_speed m.subtype m.id
  else if m.type = MATCH_LENGTH then
    NumericValueSubMatch ((v.gcache_total_length + 15) / 16) m.subtype m.id
  else if m.type = MATCH_WAGONS then
    if v.vtype = VEH_TRAIN then NumericValueSubMatch (CountWagons v.parts) m.subtype m.id
    else none
  else if m.type = MATCH_GENERIC then NumericValueSubMatch v.unitnumber MATCH_EQUAL m.id
  else if m.type = MATCH_PROFIT then
    MoneyValueSubMatch (v.profit_this_year + v.profit_last_year) m.subtype m.id
  else if m.type = MATCH_PROFIT_THIS then MoneyValueSubMatch v.profit_this_year m.subtype m.id
  else if m.type = MATCH_PROFIT_LAST then MoneyValueSubMatch v.profit_last_year m.subtype m.id
  else if m.type = MATCH_GROUP then
    match gs.groups.find? (fun g => g.index == v.group_id) with
    | none => some false
    | some g => StringValueSubMatch g.name m.subtype m.id
  else none

/-- `VehicleMatches` over a chain: the `next` link is checked first (the `[]`
case is the absent `next`). -/
def VehicleMatches (gs : GameState) (v : Vehicle) : List Criterion → Option Bool
  | [] => some true
  | c :: rest =>
    match VehicleMatches gs v rest with
    | none => none
    | some false => some false
    | some true => VehicleMatches1 gs v c

/-- Evaluation of a single criterion against a town (`TownMatches` switch). -/
def TownMatches1 (gs : GameState) (t : Town) (m : Criterion) : Option Bool :=
  let have_company := gs.local_company_valid
  if m.type = MATCH_TOWN_POPULATION then NumericValueSubMatch t.population m.subtype m.id
  else if m.type = MATCH_TOWN_HOUSES then NumericValueSubMatch t.num_houses m.subtype m.id
  else if m.type = MATCH_TOWN_RATING then
    if ¬gs.local_company_valid then some false
    else NumericValueSubMatch (toU32 (t.ratings gs.local_company)) m.subtype m.id
  else if m.type = MATCH_TOWN_NOISE then NumericValueSubMatch t.noise_reached m.subtype m.id
  else if m.type = MATCH_TOWN_NOISE_REMAIN then
    NumericValueSubMatch (toU32 ((t.max_town_noise : Int) - (t.noise_reached : Int)))
      m.subtype m.id
  else if m.type = MATCH_TOWN_NOISE_MAX then
    NumericValueSubMatch t.max_town_noise m.subtype m.id
  else if m.type = MATCH_TOWN_FUNDING then
    NumericValueSubMatch t.fund_buildings_months m.subtype m.id
  else if m.type = MATCH_TOWN_ROADWORKS then
    NumericValueSubMatch t.road_build_months m.subtype m.id
  else if m.type = MATCH_TOWN_EXCLUSIVE_COMPANY then
    if t.exclusive_counter = 0 then some false
    else NumericValueSubMatch t.exclusivity m.subtype m.id
  else if m.type = MATCH_TOWN_EXCLUSIVE_MONTHS then
    NumericValueSubMatch t.exclusive_counter m.subtype m.id
  else if m.type = MATCH_TOWN_EXCLUSIVE_MY_MONTHS then
    if ¬have_company then some false
    else if t.exclusivity ≠ gs.local_company then some false
    else NumericValueSubMatch t.exclusive_counter m.subtype m.id
  else if m.type = MATCH_TOWN_EXCLUSIVE_OTHERS_MONTHS then
    if ¬have_company then some false
    else if t.exclusivity = gs.local_company then some false
    else if t.exclusivity = INVALID_COMPANY then some false
    else NumericValueSubMatch t.exclusive_counter m.subtype m.id
  else if m.type = MATCH_TOWN_STATUE then
    if ¬have_company then some false
    else some (t.statues.testBit gs.local_company)
  else if m.type = MATCH_TOWN_NO_STATUE then
    if ¬have_company then some false
    else some (!(t.statues.testBit gs.local_company))
  else if m.type = MATCH_TOWN_UNWANTED_MONTHS then
    if ¬have_company then some false
    else NumericValueSubMatch (t.unwanted gs.local_company) m.subtype m.id
  else if m.type = MATCH_GENERIC then
    some (decide (stricmp t.name m.id = 0) || decide ((t.index : Int) = atoiN m.id))
  else if m.type = MATCH_ALL then some true
  else none

/-- `TownMatches` over a chain. -/
def TownMatches (gs : GameState) (t : Town) : List Criterion → Option Bool
  | [] => some true
  | c :: rest =>
    match TownMatches gs t rest with
    | none => none
    | some false => some false
    | some true => TownMatches1 gs t c

/-- Evaluation of a single criterion against an industry (`IndustryMatches`
switch); `i->town` is always a live town, so its rendered name is a field. -/
def IndustryMatches1 (i : Industry) (m : Criterion) : Option Bool :=
  if m.type = MATCH_GENERIC then
    some (decide (stricmp i.town_name m.id = 0) || decide ((i.index : Int) = atoiN m.id))
  else if m.type = MATCH_ALL then some true
  else if m.type = MATCH_INDUSTRY_PRODUCTION then
    NumericValueSubMatch (i.last_month_production.1 + i.last_month_production.2)
      m.subtype m.id
  else if m.type = MATCH_INDUSTRY_PERCENT then
    let production := i.last_month_production.1 + i.last_month_production.2
    let transport := i.last_month_transported.1 + i.last_month_transported.2
    NumericValueSubMatch (if production ≠ 0 then transport * 100 / production else 0)
      m.subtype m.id
  else if m.type = MATCH_INDUSTRY_PRODUCTION_THIS then
    NumericValueSubMatch (i.this_month_production.1 + i.this_month_production.2)
      m.subtype m.id
  else if m.type = MATCH_INDUSTRY_PERCENT_THIS then
    let production := i.this_month_production.1 + i.this_month_production.2
    let transport := i.this_month_transported.1 + i.this_month_transported.2
    NumericValueSubMatch (if production ≠ 0 then transport * 100 / production else 0)
      m.subtype m.id
  else none

/-- `IndustryMatches` over a chain. -/
def IndustryMatches (i : Industry) : List Criterion → Option Bool
  | [] => some true
  | c :: rest =>
    match IndustryMatches i rest with
    | none => none
    | some false => some false
    | some true => IndustryMatches1 i c

/-! ## Command submission -/

/-- A `DoCommandP` submission to the external command layer: the command code,
the main parameter (`p1`, usually the entity index) and `p2`.  The map tile
argument carries no information the claims need and is omitted. -/
structure Submission where
  cmd : Nat
  p1 : Nat
  p2 : Int
deriving DecidableEq

-- External command codes, modelled as distinct tags.
def CMD_DO_TOWN_ACTION : Nat := 1
def CMD_CHANGE_SERVICE_INT : Nat := 2
def CMD_SKIP_TO_ORDER : Nat := 3
def CMD_FORCE_TRAIN_PROCEED : Nat := 4
def CMD_REVERSE_TRAIN_DIRECTION : Nat := 5
def CMD_TURN_ROADVEH : Nat := 6
def CMD_START_STOP_VEHICLE : Nat := 7
def CMD_CLONE_VEHICLE : Nat := 8

/-- External `GetCmdSendToDepot`, modelled as a tag per vehicle type. -/
def GetCmdSendToDepot (v : Vehicle) : Nat := 20 + v.vtype

/-- External `GetCmdSellVeh` on a vehicle type. -/
def GetCmdSellVehT (vt : Nat) : Nat := 30 + vt

/-- External `GetCmdSellVeh` on a vehicle. -/
def GetCmdSellVeh (v : Vehicle) : Nat := GetCmdSellVehT v.vtype

/-- `DEPOT_SERVICE` flag of the send-to-depot command. -/
def DEPOT_SERVICE : Int := 1

/-! ## Per-entity command handlers -/

/-- `DoTownCommand`: returns the affected increment and the submissions made.
Window/console/simulation side effects that bypass `DoCommandP` (scrolling,
printing, `GrowTown`, `delete`) are not tracked.  `none` models the
`NOT_REACHED()` default. -/
def DoTownCommand (t : Town) (command : Int) : Option (Int × List Submission) :=
  if command = TOWN_COUNT then some (1, [])
  else if command = TOWN_CENTER then some (1, [])
  else if command = TOWN_PRINT then some (1, [])
  else if command = TOWN_INFO then some (1, [])
  else if command = TOWN_OPEN then some (1, [])
  else if command = TOWN_OPEN_AUTH then some (1, [])
  else if command = TOWN_EXPAND then some (1, [])
  else if command = TOWN_DELETE then some (1, [])
  else if command = TOWN_ACTION_AD_SMALL ∨ command = TOWN_ACTION_AD_MEDIUM ∨
      command = TOWN_ACTION_AD_LARGE ∨ command = TOWN_ACTION_ROAD ∨
      command = TOWN_ACTION_STATUE ∨ command = TOWN_ACTION_FUND ∨
      command = TOWN_ACTION_EXCLUSIVE ∨ command = TOWN_ACTION_BRIBE then
    some (1, [⟨CMD_DO_TOWN_ACTION, t.index, command - TOWN_ACTION_0⟩])
  else none

/-- `DoIndustryCommand`. -/
def DoIndustryCommand (i : Industry) (command : Int) : Option (Int × List Submission) :=
  if command = INDUSTRY_COUNT then some (1, [])
  else if command = INDUSTRY_CENTER then some (1, [])
  else if command = INDUSTRY_INFO then some (1, [])
  else if command = INDUSTRY_OPEN then some (1, [])
  else if command = INDUSTRY_DELETE then some (1, [])
  else none

/-- Wagon-collection loop of the `wsell` (TRAIN_SELL_WAGON) handler.  `fuel`
counts the remaining iterations of `for (uint i = 0; i <= max; i++)` (so it
starts at `max + 1`), `i = max + 1 - fuel`, `buf`/`num` model the
`to_be_sold` array and `num_to_sell` counter. -/
def wsellCollect (min : Nat) : Nat → Nat → List TrainPart → (Nat → Nat) → Nat →
    ((Nat → Nat) × Nat)
  | 0, _, _, buf, num => (buf, num)
  | fuel + 1, i, tr, buf, num =>
    match tr.dropWhile (fun w => w.articulated) with
    | [] => (buf, num)
    | w :: tr2 =>
      if i ≥ min then
        let buf' := fun j => if j = num then w.index else buf j
        -- the source statement `num_to_sell;` after the array write has no
        -- effect (the increment is missing), so `num` is left unchanged
        if num ≥ 100 then (buf', num)
        else wsellCollect min fuel (i + 1) tr2 buf' num
      else wsellCollect min fuel (i + 1) tr2 buf num

/-- The `new_interval` computation and submission of `VEHICLE_INTERVAL`
after a successful argument parse. -/
def vehIntervalSubmit (gs : GameState) (v : Vehicle) (raw : Int) :
    Option (Int × List Submission) :=
  if gs.service_clamp raw v.owner = (v.service_interval : Int) then some (0, [])
  else some (1, [⟨CMD_CHANGE_SERVICE_INT, v.index, gs.service_clamp raw v.owner⟩])

/-- The `num_orders` computed by `VEHICLE_SKIP_ORDER` before falling through
(1 for a plain `VEHICLE_LEAVE_STATION`): a leading `r` argument draws
`InteractiveRandom`, otherwise the signed parse with fallback 1. -/
def skipNumOrders (gs : GameState) (command : Int) (args : List (List Nat)) : Int :=
  if command = VEHICLE_SKIP_ORDER then
    match args with
    | [] => 1
    | a0 :: _ =>
      if a0.head?.elim false (fun c => tolowerN c = 114) then gs.interactive_random
      else match GetArgumentSignedInteger a0 with
        | none => 1
        | some n => n
  else 1

/-- The `new_order` target: `(current + num_orders) % GetNumOrders()`, mapped
to the last order when negative.  C `%` truncates toward zero (`Int.tmod`). -/
def vehSkipTarget (v : Vehicle) (num_orders : Int) : Int :=
  if ((v.current_order.index : Int) + num_orders).tmod (v.num_orders : Int) < 0 then
    (v.num_orders : Int)
  else ((v.current_order.index : Int) + num_orders).tmod (v.num_orders : Int)

/-- The early-return conditions of the depot/service/undepot/unservice block
that depend on the current order. -/
def vehDepotBlocked (v : Vehicle) (command : Int) : Bool :=
  if v.current_order.otype = OT_GOTO_DEPOT then
    if v.current_order.halt_in_depot then
      decide (command = VEHICLE_DEPOT ∨ command = VEHICLE_UNSERVICE)
    else
      decide (command = VEHICLE_UNDEPOT ∨ command = VEHICLE_SERVICE)
  else
    decide (command = VEHICLE_UNDEPOT ∨ command = VEHICLE_UNSERVICE)

/-- The `num_clones` argument of `VEHICLE_CLONE`/`VEHICLE_CLONE_SHARED`. -/
def cloneCount (args : List (List Nat)) : Nat :=
  match args with
  | [] => 1
  | a0 :: _ =>
    match GetArgumentInteger a0 with
    | none => 1
    | some n => n

/-- The `max` bound of the `wsell` range: the first argument alone sells one
wagon, a second argument extends the range and must not be below `min`. -/
def wsellMax (mn : Nat) (args1 : List (List Nat)) : Option Nat :=
  match args1 with
  | [] => some mn
  | a1 :: _ =>
    match GetArgumentInteger a1 with
    | none => none
    | some mx => if mx < mn then none else some mx

/-- The sell submissions of `wsell`: one `GetCmdSellVeh(VEH_TRAIN)` call per
entry of the collected `to_be_sold` prefix. -/
def wsellSubs (v : Vehicle) (mn mx : Nat) : List Submission :=
  (List.range (wsellCollect mn (mx + 1) 0 v.parts (fun _ => 0) 0).2).map
    (fun j => ⟨GetCmdSellVehT VEH_TRAIN,
      (wsellCollect mn (mx + 1) 0 v.parts (fun _ => 0) 0).1 j, 0⟩)

/-- `DoVehicleCommand`: the big per-vehicle command switch.  `none` models
the `assert` statements and `NOT_REACHED()` defaults. -/
def DoVehicleCommand (gs : GameState) (v : Vehicle) (command : Int)
    (args : List (List Nat)) : Option (Int × List Submission) :=
  if command = VEHICLE_COUNT then some (1, [])
  else if command = VEHICLE_OPEN then some (1, [])
  else if command = VEHICLE_INTERVAL then
    match args with
    | [] => none  -- assert(argc)
    | a0 :: _ =>
      match GetArgumentSignedInteger a0 with
      | none => some (0, [])
      | some raw => vehIntervalSubmit gs v raw
  else if command = VEHICLE_CENTER then some (1, [])
  else if command = TRAIN_WAGON_INFO then
    if v.vtype = VEH_TRAIN then some (1, []) else none  -- assert(v->type == VEH_TRAIN)
  else if command = VEHICLE_INFO then some (1, [])
  else if command = VEHICLE_SKIP_ORDER ∨ command = VEHICLE_LEAVE_STATION then
    -- VEHICLE_SKIP_ORDER computes num_orders and falls through to the
    -- VEHICLE_LEAVE_STATION block
    if command = VEHICLE_LEAVE_STATION ∧ v.current_order.otype ≠ OT_LOADING then
      some (0, [])
    else if skipNumOrders gs command args = 0 then some (0, [])
    else some (1, [⟨CMD_SKIP_TO_ORDER, v.index,
      vehSkipTarget v (skipNumOrders gs command args)⟩])
  else if command = TRAIN_IGNORE then some (1, [⟨CMD_FORCE_TRAIN_PROCEED, v.index, 0⟩])
  else if command = VEHICLE_TURN then
    if v.vtype = VEH_TRAIN then some (1, [⟨CMD_REVERSE_TRAIN_DIRECTION, v.index, 0⟩])
    else if v.vtype = VEH_ROAD then some (1, [⟨CMD_TURN_ROADVEH, v.index, 0⟩])
    else none  -- NOT_REACHED
  else if command = VEHICLE_STOP ∨ command = VEHICLE_START then
    if command = VEHICLE_STOP ∧ v.vehstatus &&& VS_STOPPED ≠ 0 then some (0, [])
    else if command = VEHICLE_START ∧ v.vehstatus &&& VS_STOPPED = 0 then some (0, [])
    else some (1, [⟨CMD_START_STOP_VEHICLE, v.index, 0⟩])
  else if command = VEHICLE_DEPOT ∨ command = VEHICLE_SERVICE ∨
      command = VEHICLE_UNDEPOT ∨ command = VEHICLE_UNSERVICE then
    if v.vehstatus &&& VS_STOPPED ≠ 0 ∧ v.in_depot then some (0, [])
    else if vehDepotBlocked v command = true then some (0, [])
    else some (1, [⟨GetCmdSendToDepot v, v.index,
      if command = VEHICLE_SERVICE ∨ command = VEHICLE_UNSERVICE then DEPOT_SERVICE
      else 0⟩])
  else if command = VEHICLE_CLONE ∨ command = VEHICLE_CLONE_SHARED then
    some (1, List.replicate (cloneCount args)
      ⟨CMD_CLONE_VEHICLE, v.index, if command = VEHICLE_CLONE_SHARED then 1 else 0⟩)
  else if command = TRAIN_SELL_WAGON then
    if v.vtype ≠ VEH_TRAIN then none  -- assert(v->type == VEH_TRAIN)
    else match args with
    | [] => none  -- assert(argc)
    | a0 :: args1 =>
      match GetArgumentInteger a0 with
      | none => some (0, [])
      | some mn =>
        match wsellMax mn args1 with
        | none => some (0, [])
        | some mx => some (1, wsellSubs v mn mx)
  else if command = VEHICLE_SELL then
    some (1, [⟨GetCmdSellVeh v, v.index, if v.vtype = VEH_TRAIN then 1 else 0⟩])
  else none

/-! ## Group lookup and the vehicle dispatcher's generic-to-group rewriting -/

/-- Loop of `GetGroupByName`.  The name buffer `buf` is only refreshed for
groups owned by the local company, so for foreign groups it keeps its previous
contents (initially the uninitialized `buf0`), exactly as in the source. -/
def ggbnGo (gs : GameState) (name : List Nat) :
    List Group → List Nat → Option Group → Option Group → Bool → Bool → Option Group
  | [], _, nocase_g, prefix_g, uniq_nc, uniq_pfx =>
    match nocase_g, uniq_nc with
    | some g, true => some g
    | _, _ =>
      match prefix_g, uniq_pfx with
      | some g, true => some g
      | _, _ => none
  | g :: rest, buf, nocase_g, prefix_g, uniq_nc, uniq_pfx =>
    let buf := if g.owner = gs.local_company then g.name else buf
    if buf = name then some g
    else if stricmp buf name = 0 then
      ggbnGo gs name rest buf (some g) prefix_g
        (if nocase_g.isSome then false else uniq_nc) uniq_pfx
    else if str_isprefix name buf = true then
      ggbnGo gs name rest buf nocase_g (some g) uniq_nc
        (if prefix_g.isSome then false else uniq_pfx)
    else ggbnGo gs name rest buf nocase_g prefix_g uniq_nc uniq_pfx

/-- `GetGroupByName`: case-sensitive exact match wins immediately; then a
unique case-insensitive exact match; then a unique case-insensitive prefix
match; otherwise no group. -/
def GetGroupByName (gs : GameState) (name : List Nat) : Option Group :=
  ggbnGo gs name gs.groups gs.buf0 none none true true

/-- The `//Check for generic matches and convert them to group matches` loop
of `ConVehicleCommand`: the first generic criterion naming a group becomes a
group restriction of the candidate list (the criterion toggles to match-all),
later ones become group-membership predicates. -/
def convertGenericMatches (gs : GameState) :
    List Criterion → Nat → Nat → (List Criterion × Nat × Nat)
  | [], list_type, object_id => ([], list_type, object_id)
  | c :: rest, list_type, object_id =>
    if c.type = MATCH_GENERIC then
      match GetGroupByName gs c.id with
      | some g =>
        if list_type = VL_STANDARD then
          let r := convertGenericMatches gs rest VL_GROUP_LIST g.index
          (⟨MATCH_ALL, c.subtype, c.id⟩ :: r.1, r.2)
        else
          let r := convertGenericMatches gs rest list_type object_id
          (⟨MATCH_GROUP, c.subtype, c.id⟩ :: r.1, r.2)
      | none =>
        let r := convertGenericMatches gs rest list_type object_id
        (c :: r.1, r.2)
    else
      let r := convertGenericMatches gs rest list_type object_id
      (c :: r.1, r.2)

/-- Modelled from the spec: `GenerateVehicleSortList` and
`VehicleListIdentifier` are external to the given sources; per the spec the
dispatcher iterates "the full (or group-pre-restricted) candidate
collection". -/
def GenerateVehicleSortList (gs : GameState) (list_type object_id : Nat) : List Vehicle :=
  if list_type = VL_GROUP_LIST then gs.vehicles.filter (fun v => v.group_id == object_id)
  else gs.vehicles

/-! ## Dispatchers -/

/-- Observable outcome of one dispatcher invocation: the `handled` return
value, whether generated usage help was printed, the `IConsoleError` /
editor-warning messages, the final `matched`/`affected` report (absent when
the run ends before the iteration), and all submissions. -/
structure ConResult where
  handled : Bool
  help : Bool
  errors : List String
  report : Option (Nat × Int)
  subs : List Submission
deriving DecidableEq

/-- Town iteration of `ConTown` (`FOR_ALL_TOWNS`): `affected` accumulates the
handler results with `+=`. -/
def townLoop (gs : GameState) (m : List Criterion) (cmdId : Int) :
    List Town → Nat → Int → List Submission → Option (Nat × Int × List Submission)
  | [], matched, affected, subs => some (matched, affected, subs)
  | t :: ts, matched, affected, subs =>
    match TownMatches gs t m with
    | none => none
    | some false => townLoop gs m cmdId ts matched affected subs
    | some true =>
      match DoTownCommand t cmdId with
      | none => none
      | some (r, s) => townLoop gs m cmdId ts (matched + 1) (affected + r) (subs ++ s)

/-- `ConTown`. -/
def ConTown (gs : GameState) (args : List (List Nat)) : Option ConResult :=
  let mask := FOR_TOWN
  if args.length = 0 then
    some ⟨true, true, [], none, []⟩
  else if args.length < 3 then
    some ⟨false, false, [], none, []⟩
  else
    match CheckMatchArgs args mask with
    | none => some ⟨true, false, [], none, []⟩
    | some (m, rest) =>
      match rest with
      | [] => some ⟨false, false, [], none, []⟩
      | cmdTok :: _ =>
        let cmd := GetTownCommand cmdTok
        if cmd.id = 0 then
          some ⟨false, false, ["You have specified invalid command."], none, []⟩
        else if rest.length < 1 + cmd.params then
          some ⟨true, false, ["This command requires additional parameter(s)."], none, []⟩
        else
          let errs :=
            if ¬gs.game_mode_editor ∧ cmd.req &&& IN_EDITOR ≠ 0 then
              ["This command can be used only in scenario editor"]
            else []
          if cmd.req &&& IS_ALIAS ≠ 0 then none  -- assert(!(cmd.req & IS_ALIAS))
          else
            match townLoop gs m cmd.id gs.towns 0 0 [] with
            | none => none
            | some (matched, affected, subs) =>
              some ⟨true, false, errs, some (matched, affected), subs⟩

/-- Industry iteration of `ConIndustry`: note that `affected` is assigned
(`affected = DoIndustryCommand(...)`), not accumulated. -/
def industryLoop (m : List Criterion) (cmdId : Int) :
    List Industry → Nat → Int → List Submission → Option (Nat × Int × List Submission)
  | [], matched, affected, subs => some (matched, affected, subs)
  | i :: is_, matched, affected, subs =>
    match IndustryMatches i m with
    | none => none
    | some false => industryLoop m cmdId is_ matched affected subs
    | some true =>
      match DoIndustryCommand i cmdId with
      | none => none
      | some (r, s) => industryLoop m cmdId is_ (matched + 1) r (subs ++ s)

/-- `ConIndustry`. -/
def ConIndustry (gs : GameState) (args : List (List Nat)) : Option ConResult :=
  let mask := FOR_INDUSTRY
  if args.length = 0 then
    some ⟨true, true, [], none, []⟩
  else if args.length < 3 then
    some ⟨false, false, [], none, []⟩
  else
    match CheckMatchArgs args mask with
    | none => some ⟨true, false, [], none, []⟩
    | some (m, rest) =>
      match rest with
      | [] => some ⟨false, false, [], none, []⟩
      | cmdTok :: _ =>
        let cmd := GetIndustryCommand cmdTok
        if cmd.id = 0 then
          some ⟨false, false, ["You have specified invalid command."], none, []⟩
        else if rest.length < 1 + cmd.params then
          some ⟨true, false, ["This command requires additional parameter(s)."], none, []⟩
        else
          let errs :=
            if ¬gs.game_mode_editor ∧ cmd.req &&& IN_EDITOR ≠ 0 then
              ["This command can be used only in scenario editor"]
            else []
          if cmd.req &&& IS_ALIAS ≠ 0 then none
          else
            match industryLoop m cmd.id gs.industries 0 0 [] with
            | none => none
            | some (matched, affected, subs) =>
              some ⟨true, false, errs, some (matched, affected), subs⟩

/-- The per-subtype applicability test of the vehicle iteration; the default
of the C switch is `NOT_REACHED()` (`none`). -/
def vehTypeOk (v : Vehicle) (cmdReq : Nat) : Option Bool :=
  if v.vtype = VEH_TRAIN then some (cmdReq &&& FOR_TRAIN ≠ 0)
  else if v.vtype = VEH_ROAD then some (cmdReq &&& FOR_ROAD ≠ 0)
  else if v.vtype = VEH_SHIP then some (cmdReq &&& FOR_SHIP ≠ 0)
  else if v.vtype = VEH_AIRCRAFT then some (cmdReq &&& FOR_AIRCRAFT ≠ 0)
  else none  -- NOT_REACHED

/-- Vehicle iteration of `ConVehicleCommand`: matched vehicles go through the
per-command precondition bits, then `affected` is assigned (not accumulated)
from the handler result. -/
def vehicleLoop (gs : GameState) (m : List Criterion) (cmdReq : Nat) (cmdId : Int)
    (cargs : List (List Nat)) :
    List Vehicle → Nat → Int → List Submission → Option (Nat × Int × List Submission)
  | [], matched, affected, subs => some (matched, affected, subs)
  | v :: vs, matched, affected, subs =>
    match VehicleMatches gs v m with
    | none => none
    | some false => vehicleLoop gs m cmdReq cmdId cargs vs matched affected subs
    | some true =>
      if cmdReq &&& NOT_CRASHED ≠ 0 ∧ v.vehstatus &&& VS_CRASHED ≠ 0 then
        vehicleLoop gs m cmdReq cmdId cargs vs (matched + 1) affected subs
      else if cmdReq &&& STOPPED ≠ 0 ∧ v.vehstatus &&& VS_STOPPED = 0 then
        vehicleLoop gs m cmdReq cmdId cargs vs (matched + 1) affected subs
      else if cmdReq &&& IN_DEPOT ≠ 0 ∧ ¬v.in_depot then
        vehicleLoop gs m cmdReq cmdId cargs vs (matched + 1) affected subs
      else
        match vehTypeOk v cmdReq with
        | none => none
        | some false => vehicleLoop gs m cmdReq cmdId cargs vs (matched + 1) affected subs
        | some true =>
          match DoVehicleCommand gs v cmdId cargs with
          | none => none
          | some (r, s) =>
            vehicleLoop gs m cmdReq cmdId cargs vs (matched + 1) r (subs ++ s)

/-- The per-vehicle-type mask and noun of `ConVehicleCommand`. -/
def vehMaskName (vtype : Nat) : Option (Nat × String) :=
  if vtype = VEH_TRAIN then some (FOR_TRAIN, "train")
  else if vtype = VEH_ROAD then some (FOR_ROAD, "road vehicle")
  else if vtype = VEH_SHIP then some (FOR_SHIP, "ship")
  else if vtype = VEH_AIRCRAFT then some (FOR_AIRCRAFT, "aircraft")
  else if vtype = VEH_INVALID then some (FOR_VEHICLE, "vehicle")
  else none  -- NOT_REACHED

/-- `ConVehicleCommand`: the generic vehicle dispatcher. -/
def ConVehicleCommand (gs : GameState) (args : List (List Nat)) (vtype : Nat) :
    Option ConResult :=
  match vehMaskName vtype with
  | none => none
  | some (mask, vehicle_name) =>
    if args.length = 0 then
      some ⟨true, true, [], none, []⟩
    else if ¬gs.local_company_valid then
      some ⟨true, false, ["You have to own a company to make use of this command."],
        none, []⟩
    else if args.length < 3 then
      some ⟨false, false, [], none, []⟩
    else
      match CheckMatchArgs args mask with
      | none => some ⟨true, false, [], none, []⟩
      | some (m, rest) =>
        match rest with
        | [] => some ⟨false, false, [], none, []⟩
        | cmdTok :: cargs =>
          let cmd := GetVehicleCommand cmdTok
          if cmd.id = 0 then
            some ⟨false, false, ["You have specified invalid command."], none, []⟩
          else if rest.length < 1 + cmd.params then
            some ⟨true, false, ["This command requires additional parameter(s)."], none, []⟩
          else if cmd.req &&& mask = 0 then
            some ⟨true, false,
              [" ERROR: The command you have specified cannot be applied to " ++
                vehicle_name ++ "."], none, []⟩
          else if cmd.req &&& IS_ALIAS ≠ 0 then none  -- assert(!(cmd.req & IS_ALIAS))
          else
            let conv := convertGenericMatches gs m VL_STANDARD 0
            let sort_list := GenerateVehicleSortList gs conv.2.1 conv.2.2
            match vehicleLoop gs conv.1 cmd.req cmd.id cargs sort_list 0 0 [] with
            | none => none
            | some (matched, affected, subs) =>
              some ⟨true, false, [], some (matched, affected), subs⟩

/-- `ConTrain`. -/
def ConTrain (gs : GameState) (args : List (List Nat)) : Option ConResult :=
  ConVehicleCommand gs args VEH_TRAIN

/-- `ConRoad`. -/
def ConRoad (gs : GameState) (args : List (List Nat)) : Option ConResult :=
  ConVehicleCommand gs args VEH_ROAD

/-- `ConShip`. -/
def ConShip (gs : GameState) (args : List (List Nat)) : Option ConResult :=
  ConVehicleCommand gs args VEH_SHIP

/-- `ConAircraft`. -/
def ConAircraft (gs : GameState) (args : List (List Nat)) : Option ConResult :=
  ConVehicleCommand gs args VEH_AIRCRAFT

/-- `ConVehicle`. -/
def ConVehicle (gs : GameState) (args : List (List Nat)) : Option ConResult :=
  ConVehicleCommand gs args VEH_INVALID

/-! ## Derived notions used by the resolver specification -/

/-- No table entry's name equals the query case-insensitively. -/
def NoExact (q : List Nat) (l : List StringInfo) : Prop :=
  ∀ e ∈ l, stricmp q e.name ≠ 0

/-- Every non-alias entry has a nonzero id (no real entry reuses the invalid
identifier). -/
def RealIdsNonzero (l : List StringInfo) : Prop :=
  ∀ e ∈ l, e.id ≠ LIST_ALIAS → e.id ≠ 0

/-- Alias runs are closed: the table does not end in an alias entry, so the
forward scan past aliases always lands on a real entry. -/
def AliasClosed (l : List StringInfo) : Prop :=
  Option.all (fun e => e.id != LIST_ALIAS) l.getLast? = true

/-- The real descriptors denoted by the entries of which `q` is a
case-insensitive prefix, in table order. -/
def prefixHitReals (q : List Nat) (invalid : StringInfo) : List StringInfo → List StringInfo
  | [] => []
  | e :: rest =>
    (if str_isprefix q e.name = true then [firstReal invalid (e :: rest)] else []) ++
      prefixHitReals q invalid rest

instance (q : List Nat) (l : List StringInfo) : Decidable (NoExact q l) := by
  unfold NoExact; infer_instance

instance (l : List StringInfo) : Decidable (AliasClosed l) := by
  unfold AliasClosed; infer_instance

instance (l : List StringInfo) : Decidable (RealIdsNonzero l) := by
  unfold RealIdsNonzero; infer_instance

/-! ## Concrete fixtures for the claim analyses -/

/-- A town with the numeric identifier 0 (the `atoi` fallback value). -/
def townIdx0 : Town :=
  ⟨0, strN "aaa", 100, 5, fun _ => 0, 0, 10, 0, 0, INVALID_COMPANY, 0, 0, fun _ => 0⟩

def townA : Town :=
  ⟨1, strN "Aville", 500, 20, fun _ => 0, 0, 10, 0, 0, INVALID_COMPANY, 0, 0, fun _ => 0⟩

def indA : Industry := ⟨1, strN "Aville", (1, 2), (0, 0), (0, 0), (0, 0)⟩
def indB : Industry := ⟨2, strN "Bville", (3, 4), (0, 0), (0, 0), (0, 0)⟩

def shipA : Vehicle :=
  ⟨7, VEH_SHIP, 3, 0, 0, false, 100, 0, 0, 0, 0, 0, 50, 0, [], 0, 0, 99, ⟨0, false, 0⟩, 1⟩

def trainA : Vehicle :=
  ⟨4, VEH_TRAIN, 1, 0, 0, true, 100, 0, 0, 0, 0, 0, 120, 48,
    [⟨4, false⟩, ⟨5, false⟩, ⟨6, true⟩, ⟨8, false⟩], 0, 0, 99, ⟨0, false, 0⟩, 1⟩

/-- Base game state: one local company (id 1), normal play mode. -/
def gsA : GameState :=
  ⟨[townA, townIdx0], [indA, indB], [shipA, trainA], [], 1, true, false, [], 42,
    fun x _ => x⟩

/-- A miniature symbol table realizing the spec's `{ship, show}` example. -/
def shipShowTable : List StringInfo :=
  [⟨1, strN "ship", 0, FOR_SHIP⟩, ⟨2, strN "show", 0, FOR_SHIP⟩]

/-- An alias entry directly followed by its real command, as in the tables. -/
def centreAliasTable : List StringInfo :=
  [⟨LIST_ALIAS, strN "centre", 0, 0⟩, ⟨TOWN_CENTER, strN "center", 0, FOR_TOWN⟩,
    ⟨TOWN_COUNT, strN "count", 0, FOR_TOWN⟩]

/-! ## Claim C1 -/

/-- C1: the claim says every accepted command invocation increments the
`affected` counter, so the final report equals the number of accepted
invocations.  `ConTown` does accumulate, but `ConIndustry` (and likewise
`ConVehicleCommand`) assign `affected = DoIndustryCommand(...)`: with two
matched industries whose `count` invocations are both accepted (each handler
returns 1), the report is `matched = 2, affected = 1` instead of 2. -/
theorem C1_industry_affected_not_accumulated :
    ConIndustry gsA [strN "industry", strN "all", strN "count"] =
      some ⟨true, false, [], some (2, 1), []⟩ ∧
    DoIndustryCommand indA INDUSTRY_COUNT = some (1, []) ∧
    DoIndustryCommand indB INDUSTRY_COUNT = some (1, []) ∧
    ConTown gsA [strN "town", strN "all", strN "count"] =
      some ⟨true, false, [], some (2, 2), []⟩ := by
  refine ⟨by decide, rfl, rfl, by decide⟩

/-! ## Claim C2 -/

/-- C2 counterexample: with a successfully built filter chain and an
unresolvable command token, `ConTown` reports the "invalid command" error but
returns `handled = false` (the C `return false;` at the `!cmd.id` check), not
`handled = true` as claimed. -/
theorem C2_counterexample :
    (ConTown gsA [strN "town", strN "all", strN "bogus"]).map ConResult.handled =
      some false := by decide

/-! ## Claim C3 -/

/-- C3 counterexample: for the token `zzz=7` (operator present, key `zzz`
unresolved) the built criterion is a generic match whose literal is the
substring `7` after the operator, not the whole token `zzz=7` as claimed. -/
theorem C3_counterexample :
    CheckMatch (strN "zzz=7") FOR_TOWN =
      some ⟨MATCH_GENERIC, MATCH_EQUAL, strN "7"⟩ ∧
    strN "7" ≠ strN "zzz=7" := by
  exact ⟨by decide, by decide⟩

/-! ## Claim C4 -/

/-- C4 counterexample: the generic town match compares `t->index` against
`atoi` of the literal, which returns 0 on a non-numeric literal; a town with
identifier 0 therefore matches the literal `xyz` even though its display name
differs and the literal parses as no integer — the claim predicts no match. -/
theorem C4_counterexample :
    TownMatches gsA townIdx0 [⟨MATCH_GENERIC, MATCH_NONE, strN "xyz"⟩] = some true ∧
    stricmp townIdx0.name (strN "xyz") ≠ 0 ∧
    GetArgumentInteger (strN "xyz") = none := by
  exact ⟨by decide, by decide, by decide⟩

/-! ## Claim C5 -/

/-- C5: under the combined `FOR_VEHICLE` mask of the `vehicle` selector the
train-only criterion `wagons` passes the build-time applicability check
(`FOR_TRAIN & FOR_VEHICLE != 0`), and evaluating it against a ship reaches
`assert(v->type == VEH_TRAIN)` in the matcher (modelled by `none`), aborting
the whole dispatcher run — the claimed mask-upheld contract is violated. -/
theorem C5_wagons_assert_reachable :
    CheckMatch (strN "wagons=3") FOR_VEHICLE =
      some ⟨MATCH_WAGONS, MATCH_EQUAL, strN "3"⟩ ∧
    VehicleMatches gsA shipA [⟨MATCH_WAGONS, MATCH_EQUAL, strN "3"⟩] = none ∧
    ConVehicle gsA [strN "vehicle", strN "wagons=3", strN "count"] = none := by
  exact ⟨by decide, by decide, by decide⟩

/-! ## Claim C10 -/

/-- The wagon-collection loop never changes the `num_to_sell` counter: the
increment statement is missing in the source (`num_to_sell;`). -/
theorem wsellCollect_num (mn : Nat) :
    ∀ (fuel i : Nat) (tr : List TrainPart) (buf : Nat → Nat) (num : Nat),
      (wsellCollect mn fuel i tr buf num).2 = num := by
  intro fuel
  induction fuel with
  | zero => intro i tr buf num; rfl
  | succ n ih =>
    intro i tr buf num
    unfold wsellCollect
    cases h : tr.dropWhile (fun w => w.articulated) with
    | nil => simp
    | cons w tr2 =>
      simp only [h]
      split_ifs with h1 h2
      · rfl
      · exact ih (i + 1) tr2 _ num
      · exact ih (i + 1) tr2 buf num

/-- C10: for every train and every valid wagon-range argument pair, the
`wsell` (TRAIN_SELL_WAGON) handler submits no sell action at all — its list of
wagons to sell stays empty because the collected-wagon counter is never
incremented — yet it returns 1, so the train counts as affected. -/
theorem C10_wsell_sells_nothing (gs : GameState) (v : Vehicle) (a0 : List Nat)
    (rest : List (List Nat)) (mn : Nat)
    (hv : v.vtype = VEH_TRAIN)
    (h0 : GetArgumentInteger a0 = some mn)
    (h1 : ∀ a1 rest2, rest = a1 :: rest2 →
      ∃ mx, GetArgumentInteger a1 = some mx ∧ mn ≤ mx) :
    DoVehicleCommand gs v TRAIN_SELL_WAGON (a0 :: rest) = some (1, []) := by
  unfold DoVehicleCommand
  simp only [TRAIN_SELL_WAGON, VEHICLE_COUNT, VEHICLE_OPEN, VEHICLE_INTERVAL,
    VEHICLE_CENTER, TRAIN_WAGON_INFO, VEHICLE_INFO, VEHICLE_SKIP_ORDER,
    VEHICLE_LEAVE_STATION, TRAIN_IGNORE, VEHICLE_TURN, VEHICLE_STOP,
    VEHICLE_START, VEHICLE_DEPOT, VEHICLE_SERVICE, VEHICLE_UNDEPOT,
    VEHICLE_UNSERVICE, VEHICLE_CLONE, VEHICLE_CLONE_SHARED, VEHICLE_SELL]
  norm_num
  refine ⟨hv, ?_⟩
  simp only [h0]
  have hsubs : ∀ mx, wsellSubs v mn mx = [] := by
    intro mx
    unfold wsellSubs
    rw [wsellCollect_num]
    simp
  cases rest with
  | nil => simp [wsellMax, hsubs]
  | cons a1 rest2 =>
    obtain ⟨mx, hmx, hle⟩ := h1 a1 rest2 rfl
    simp [wsellMax, hmx, Nat.not_lt_of_le hle, hsubs]

/-- C10 witness: a concrete train with four parts and range arguments `1 2`;
the handler reports success (1) with zero submitted sell actions. -/
theorem C10_wsell_witness :
    DoVehicleCommand gsA trainA TRAIN_SELL_WAGON [strN "1", strN "2"] = some (1, []) :=
  C10_wsell_sells_nothing gsA trainA (strN "1") [strN "2"] 1 rfl (by decide)
    (fun a1 rest2 h => by
      cases h; exact ⟨2, by decide, by decide⟩)

/-! ## Claim C7 -/

/-- Cons characterization of the vehicle chain matcher. -/
theorem VehicleMatches_cons (gs : GameState) (v : Vehicle) (c : Criterion)
    (rest : List Criterion) :
    VehicleMatches gs v (c :: rest) = some true ↔
      VehicleMatches gs v rest = some true ∧ VehicleMatches1 gs v c = some true := by
  simp only [VehicleMatches]
  cases hr : VehicleMatches gs v rest with
  | none => simp
  | some b => cases b <;> simp

/-- Cons characterization of the town chain matcher. -/
theorem TownMatches_cons (gs : GameState) (t : Town) (c : Criterion)
    (rest : List Criterion) :
    TownMatches gs t (c :: rest) = some true ↔
      TownMatches gs t rest = some true ∧ TownMatches1 gs t c = some true := by
  simp only [TownMatches]
  cases hr : TownMatches gs t rest with
  | none => simp
  | some b => cases b <;> simp

/-- Cons characterization of the industry chain matcher. -/
theorem IndustryMatches_cons (i : Industry) (c : Criterion) (rest : List Criterion) :
    IndustryMatches i (c :: rest) = some true ↔
      IndustryMatches i rest = some true ∧ IndustryMatches1 i c = some true := by
  simp only [IndustryMatches]
  cases hr : IndustryMatches i rest with
  | none => simp
  | some b => cases b <;> simp

/-- C7: for each of the three entity kinds, an entity matches a filter chain
iff it matches every criterion of the chain individually (evaluated as a
singleton chain) — the chain is a pure conjunction, independent of order. -/
theorem C7_chain_is_conjunction :
    (∀ (gs : GameState) (v : Vehicle) (chain : List Criterion),
      VehicleMatches gs v chain = some true ↔
        ∀ c ∈ chain, VehicleMatches gs v [c] = some true) ∧
    (∀ (gs : GameState) (t : Town) (chain : List Criterion),
      TownMatches gs t chain = some true ↔
        ∀ c ∈ chain, TownMatches gs t [c] = some true) ∧
    (∀ (i : Industry) (chain : List Criterion),
      IndustryMatches i chain = some true ↔
        ∀ c ∈ chain, IndustryMatches i [c] = some true) := by
  refine ⟨?_, ?_, ?_⟩
  · intro gs v chain
    induction chain with
    | nil => simp [VehicleMatches]
    | cons c rest ih =>
      rw [VehicleMatches_cons, ih]
      constructor
      · rintro ⟨hall, hc⟩ c' hc'
        rcases List.mem_cons.mp hc' with h | h
        · subst h; exact (VehicleMatches_cons gs v c' []).mpr ⟨rfl, hc⟩
        · exact hall c' h
      · intro hall
        refine ⟨fun c' h => hall c' (List.mem_cons_of_mem _ h), ?_⟩
        exact ((VehicleMatches_cons gs v c []).mp (hall c (List.mem_cons_self _ _))).2
  · intro gs t chain
    induction chain with
    | nil => simp [TownMatches]
    | cons c rest ih =>
      rw [TownMatches_cons, ih]
      constructor
      · rintro ⟨hall, hc⟩ c' hc'
        rcases List.mem_cons.mp hc' with h | h
        · subst h; exact (TownMatches_cons gs t c' []).mpr ⟨rfl, hc⟩
        · exact hall c' h
      · intro hall
        refine ⟨fun c' h => hall c' (List.mem_cons_of_mem _ h), ?_⟩
        exact ((TownMatches_cons gs t c []).mp (hall c (List.mem_cons_self _ _))).2
  · intro i chain
    induction chain with
    | nil => simp [IndustryMatches]
    | cons c rest ih =>
      rw [IndustryMatches_cons, ih]
      constructor
      · rintro ⟨hall, hc⟩ c' hc'
        rcases List.mem_cons.mp hc' with h | h
        · subst h; exact (IndustryMatches_cons i c' []).mpr ⟨rfl, hc⟩
        · exact hall c' h
      · intro hall
        refine ⟨fun c' h => hall c' (List.mem_cons_of_mem _ h), ?_⟩
        exact ((IndustryMatches_cons i c []).mp (hall c (List.mem_cons_self _ _))).2

/-! ## Claim C6 -/

/-- Every town command handler reports at most one affected entity. -/
theorem DoTownCommand_bound (t : Town) (cmd : Int) (r : Int) (s : List Submission)
    (h : DoTownCommand t cmd = some (r, s)) : 0 ≤ r ∧ r ≤ 1 := by
  unfold DoTownCommand at h
  split_ifs at h <;> simp_all <;> obtain ⟨h1, h2⟩ := h <;> omega

/-- Every industry command handler reports at most one affected entity. -/
theorem DoIndustryCommand_bound (i : Industry) (cmd : Int) (r : Int)
    (s : List Submission) (h : DoIndustryCommand i cmd = some (r, s)) :
    0 ≤ r ∧ r ≤ 1 := by
  unfold DoIndustryCommand at h
  split_ifs at h <;> simp_all <;> obtain ⟨h1, h2⟩ := h <;> omega

/-- Every vehicle command handler reports at most one affected entity. -/
theorem DoVehicleCommand_bound (gs : GameState) (v : Vehicle) (cmd : Int)
    (args : List (List Nat)) (r : Int) (s : List Submission)
    (h : DoVehicleCommand gs v cmd args = some (r, s)) : 0 ≤ r ∧ r ≤ 1 := by
  have hint : ∀ raw r' s', vehIntervalSubmit gs v raw = some (r', s') →
      (0 : Int) ≤ r' ∧ r' ≤ 1 := by
    intro raw r' s' hh
    unfold vehIntervalSubmit at hh
    split_ifs at hh <;>
      (obtain ⟨hh1, hh2⟩ := Prod.mk.inj (Option.some.inj hh); omega)
  unfold DoVehicleCommand at h
  by_cases h1 : cmd = VEHICLE_COUNT
  · rw [if_pos h1] at h
    obtain ⟨e1, e2⟩ := Prod.mk.inj (Option.some.inj h)
    omega
  rw [if_neg h1] at h
  by_cases h2 : cmd = VEHICLE_OPEN
  · rw [if_pos h2] at h
    obtain ⟨e1, e2⟩ := Prod.mk.inj (Option.some.inj h)
    omega
  rw [if_neg h2] at h
  by_cases h3 : cmd = VEHICLE_INTERVAL
  · rw [if_pos h3] at h
    repeat' split at h
    all_goals
      first
        | exact Option.noConfusion h
        | (obtain ⟨e1, e2⟩ := Prod.mk.inj (Option.some.inj h); omega)
        | exact hint _ _ _ h
  rw [if_neg h3] at h
  by_cases h4 : cmd = VEHICLE_CENTER
  · rw [if_pos h4] at h
    obtain ⟨e1, e2⟩ := Prod.mk.inj (Option.some.inj h)
    omega
  rw [if_neg h4] at h
  by_cases h5 : cmd = TRAIN_WAGON_INFO
  · rw [if_pos h5] at h
    repeat' split at h
    all_goals
      first
        | exact Option.noConfusion h
        | (obtain ⟨e1, e2⟩ := Prod.mk.inj (Option.some.inj h); omega)
        | exact hint _ _ _ h
  rw [if_neg h5] at h
  by_cases h6 : cmd = VEHICLE_INFO
  · rw [if_pos h6] at h
    obtain ⟨e1, e2⟩ := Prod.mk.inj (Option.some.inj h)
    omega
  rw [if_neg h6] at h
  by_cases h7 : cmd = VEHICLE_SKIP_ORDER ∨ cmd = VEHICLE_LEAVE_STATION
  · rw [if_pos h7] at h
    repeat' split at h
    all_goals
      first
        | exact Option.noConfusion h
        | (obtain ⟨e1, e2⟩ := Prod.mk.inj (Option.some.inj h); omega)
        | exact hint _ _ _ h
  rw [if_neg h7] at h
  by_cases h8 : cmd = TRAIN_IGNORE
  · rw [if_pos h8] at h
    obtain ⟨e1, e2⟩ := Prod.mk.inj (Option.some.inj h)
    omega
  rw [if_neg h8] at h
  by_cases h9 : cmd = VEHICLE_TURN
  · rw [if_pos h9] at h
    repeat' split at h
    all_goals
      first
        | exact Option.noConfusion h
        | (obtain ⟨e1, e2⟩ := Prod.mk.inj (Option.some.inj h); omega)
        | exact hint _ _ _ h
  rw [if_neg h9] at h
  by_cases h10 : cmd = VEHICLE_STOP ∨ cmd = VEHICLE_START
  · rw [if_pos h10] at h
    repeat' split at h
    all_goals
      first
        | exact Option.noConfusion h
        | (obtain ⟨e1, e2⟩ := Prod.mk.inj (Option.some.inj h); omega)
        | exact hint _ _ _ h
  rw [if_neg h10] at h
  by_cases h11 : cmd = VEHICLE_DEPOT ∨ cmd = VEHICLE_SERVICE ∨ cmd = VEHICLE_UNDEPOT ∨ cmd = VEHICLE_UNSERVICE
  · rw [if_pos h11] at h
    repeat' split at h
    all_goals
      first
        | exact Option.noConfusion h
        | (obtain ⟨e1, e2⟩ := Prod.mk.inj (Option.some.inj h); omega)
        | exact hint _ _ _ h
  rw [if_neg h11] at h
  by_cases h12 : cmd = VEHICLE_CLONE ∨ cmd = VEHICLE_CLONE_SHARED
  · rw [if_pos h12] at h
    obtain ⟨e1, e2⟩ := Prod.mk.inj (Option.some.inj h)
    omega
  rw [if_neg h12] at h
  by_cases h13 : cmd = TRAIN_SELL_WAGON
  · rw [if_pos h13] at h
    repeat' split at h
    all_goals
      first
        | exact Option.noConfusion h
        | (obtain ⟨e1, e2⟩ := Prod.mk.inj (Option.some.inj h); omega)
        | exact hint _ _ _ h
  rw [if_neg h13] at h
  by_cases h14 : cmd = VEHICLE_SELL
  · rw [if_pos h14] at h
    obtain ⟨e1, e2⟩ := Prod.mk.inj (Option.some.inj h)
    omega
  rw [if_neg h14] at h
  exact Option.noConfusion h

/-- Invariant of the town iteration: starting from `affected ≤ matched` with
`affected` nonnegative, the final report satisfies `affected ≤ matched`. -/
theorem townLoop_bound (gs : GameState) (m : List Criterion) (cmdId : Int) :
    ∀ (ts : List Town) (matched : Nat) (affected : Int) (subs : List Submission),
      0 ≤ affected → affected ≤ matched →
      ∀ mt af sb, townLoop gs m cmdId ts matched affected subs = some (mt, af, sb) →
        0 ≤ af ∧ af ≤ mt := by
  intro ts
  induction ts with
  | nil =>
    intro matched affected subs h0 h1 mt af sb h
    simp only [townLoop, Option.some.injEq] at h
    obtain ⟨rfl, rfl, rfl⟩ := h
    exact ⟨h0, h1⟩
  | cons t ts ih =>
    intro matched affected subs h0 h1 mt af sb h
    simp only [townLoop] at h
    split at h
    · exact absurd h (by simp)
    · exact ih matched affected subs h0 h1 mt af sb h
    · split at h
      · exact absurd h (by simp)
      · rename_i r s' heq
        obtain ⟨hr0, hr1⟩ := DoTownCommand_bound t cmdId r s' heq
        exact ih (matched + 1) (affected + r) _ (by omega)
          (by push_cast; push_cast at h1; omega) mt af sb h

/-- Invariant of the industry iteration (`affected` is assigned, not summed):
the final report satisfies `affected ≤ matched`. -/
theorem industryLoop_bound (m : List Criterion) (cmdId : Int) :
    ∀ (is_ : List Industry) (matched : Nat) (affected : Int) (subs : List Submission),
      0 ≤ affected → affected ≤ matched →
      ∀ mt af sb, industryLoop m cmdId is_ matched affected subs = some (mt, af, sb) →
        0 ≤ af ∧ af ≤ mt := by
  intro is_
  induction is_ with
  | nil =>
    intro matched affected subs h0 h1 mt af sb h
    simp only [industryLoop, Option.some.injEq] at h
    obtain ⟨rfl, rfl, rfl⟩ := h
    exact ⟨h0, h1⟩
  | cons i is2 ih =>
    intro matched affected subs h0 h1 mt af sb h
    simp only [industryLoop] at h
    split at h
    · exact absurd h (by simp)
    · exact ih matched affected subs h0 h1 mt af sb h
    · split at h
      · exact absurd h (by simp)
      · rename_i r s' heq
        obtain ⟨hr0, hr1⟩ := DoIndustryCommand_bound i cmdId r s' heq
        exact ih (matched + 1) r _ hr0 (by push_cast; omega) mt af sb h

/-- Invariant of the vehicle iteration (`affected` is assigned, matched
entities failing a precondition are skipped): the final report satisfies
`affected ≤ matched`. -/
theorem vehicleLoop_bound (gs : GameState) (m : List Criterion) (cmdReq : Nat)
    (cmdId : Int) (cargs : List (List Nat)) :
    ∀ (vs : List Vehicle) (matched : Nat) (affected : Int) (subs : List Submission),
      0 ≤ affected → affected ≤ matched →
      ∀ mt af sb,
        vehicleLoop gs m cmdReq cmdId cargs vs matched affected subs =
          some (mt, af, sb) →
        0 ≤ af ∧ af ≤ mt := by
  intro vs
  induction vs with
  | nil =>
    intro matched affected subs h0 h1 mt af sb h
    simp only [vehicleLoop, Option.some.injEq] at h
    obtain ⟨rfl, rfl, rfl⟩ := h
    exact ⟨h0, h1⟩
  | cons v vs2 ih =>
    intro matched affected subs h0 h1 mt af sb h
    simp only [vehicleLoop] at h
    split at h
    · exact absurd h (by simp)
    · exact ih matched affected subs h0 h1 mt af sb h
    · split_ifs at h with hc1 hc2 hc3
      · exact ih (matched + 1) affected subs h0 (by push_cast; push_cast at h1; omega)
          mt af sb h
      · exact ih (matched + 1) affected subs h0 (by push_cast; push_cast at h1; omega)
          mt af sb h
      · exact ih (matched + 1) affected subs h0 (by push_cast; push_cast at h1; omega)
          mt af sb h
      · split at h
        · exact absurd h (by simp)
        · exact ih (matched + 1) affected subs h0
            (by push_cast; push_cast at h1; omega) mt af sb h
        · split at h
          · exact absurd h (by simp)
          · rename_i r s' heq
            obtain ⟨hr0, hr1⟩ := DoVehicleCommand_bound gs v cmdId cargs r s' heq
            exact ih (matched + 1) r _ hr0 (by push_cast; omega) mt af sb h

/-- C6: for every dispatcher invocation of any of the three kinds that
reaches the final report line, the reported counts satisfy
`affected <= matched`. -/
theorem C6_affected_le_matched :
    (∀ (gs : GameState) (args : List (List Nat)) (res : ConResult) (mt : Nat) (af : Int),
      ConTown gs args = some res → res.report = some (mt, af) → af ≤ mt) ∧
    (∀ (gs : GameState) (args : List (List Nat)) (res : ConResult) (mt : Nat) (af : Int),
      ConIndustry gs args = some res → res.report = some (mt, af) → af ≤ mt) ∧
    (∀ (gs : GameState) (args : List (List Nat)) (vtype : Nat) (res : ConResult)
        (mt : Nat) (af : Int),
      ConVehicleCommand gs args vtype = some res → res.report = some (mt, af) →
        af ≤ mt) := by
  refine ⟨?_, ?_, ?_⟩
  · intro gs args res mt af h hrep
    unfold ConTown at h
    simp only [] at h
    repeat' split at h
    all_goals (try exact Option.noConfusion h)
    all_goals (obtain rfl := Option.some.inj h)
    all_goals (try (exfalso; exact Option.noConfusion hrep))
    all_goals
      (obtain ⟨hmt, haf⟩ := Prod.mk.inj (Option.some.inj hrep)
       subst hmt
       subst haf
       exact (townLoop_bound gs _ _ gs.towns 0 0 [] le_rfl (by norm_num) _ _ _ (by assumption)).2)
  · intro gs args res mt af h hrep
    unfold ConIndustry at h
    simp only [] at h
    repeat' split at h
    all_goals (try exact Option.noConfusion h)
    all_goals (obtain rfl := Option.some.inj h)
    all_goals (try (exfalso; exact Option.noConfusion hrep))
    all_goals
      (obtain ⟨hmt, haf⟩ := Prod.mk.inj (Option.some.inj hrep)
       subst hmt
       subst haf
       exact (industryLoop_bound _ _ gs.industries 0 0 [] le_rfl (by norm_num) _ _ _ (by assumption)).2)
  · intro gs args vtype res mt af h hrep
    unfold ConVehicleCommand at h
    simp only [] at h
    repeat' split at h
    all_goals (try exact Option.noConfusion h)
    all_goals (obtain rfl := Option.some.inj h)
    all_goals (try (exfalso; exact Option.noConfusion hrep))
    all_goals
      (obtain ⟨hmt, haf⟩ := Prod.mk.inj (Option.some.inj hrep)
       subst hmt
       subst haf
       exact (vehicleLoop_bound gs _ _ _ _ _ 0 0 [] le_rfl (by norm_num) _ _ _ (by assumption)).2)

/-- C6 witness: the concrete run `town all count` over `gsA` reports
`matched = 2, affected = 2`, and the theorem yields `2 ≤ 2`. -/
theorem C6_witness :
    ConTown gsA [strN "town", strN "all", strN "count"] =
      some ⟨true, false, [], some (2, 2), []⟩ ∧ (2 : Int) ≤ (2 : Nat) := by
  refine ⟨by decide, ?_⟩
  exact C6_affected_le_matched.1 gsA [strN "town", strN "all", strN "count"]
    ⟨true, false, [], some (2, 2), []⟩ 2 2 (by decide) rfl

/-! ## Claim C2 (amended) -/

/-- C2 (amended): for every dispatcher invocation whose filter chain builds
successfully but whose command token does not resolve, the "invalid command"
error is reported and the dispatcher returns `handled = false` (so the caller
prints usage) with zero side effects — no entity is iterated, nothing is
submitted; the claim's `handled = true` does not hold. -/
theorem C2_amended_unknown_command :
    (∀ (gs : GameState) (args : List (List Nat)) (m : List Criterion)
        (tok : List Nat) (rest : List (List Nat)),
      3 ≤ args.length →
      CheckMatchArgs args FOR_TOWN = some (m, tok :: rest) →
      (GetTownCommand tok).id = 0 →
      ConTown gs args =
        some ⟨false, false, ["You have specified invalid command."], none, []⟩) ∧
    (∀ (gs : GameState) (args : List (List Nat)) (m : List Criterion)
        (tok : List Nat) (rest : List (List Nat)),
      3 ≤ args.length →
      CheckMatchArgs args FOR_INDUSTRY = some (m, tok :: rest) →
      (GetIndustryCommand tok).id = 0 →
      ConIndustry gs args =
        some ⟨false, false, ["You have specified invalid command."], none, []⟩) ∧
    (∀ (gs : GameState) (args : List (List Nat)) (vtype : Nat) (mask : Nat)
        (vname : String) (m : List Criterion) (tok : List Nat)
        (rest : List (List Nat)),
      vehMaskName vtype = some (mask, vname) →
      gs.local_company_valid = true →
      3 ≤ args.length →
      CheckMatchArgs args mask = some (m, tok :: rest) →
      (GetVehicleCommand tok).id = 0 →
      ConVehicleCommand gs args vtype =
        some ⟨false, false, ["You have specified invalid command."], none, []⟩) := by
  refine ⟨?_, ?_, ?_⟩
  · intro gs args m tok rest hlen hcm hid
    simp [ConTown, show ¬args.length = 0 by omega, show ¬args.length < 3 by omega,
      hcm, hid]
  · intro gs args m tok rest hlen hcm hid
    simp [ConIndustry, show ¬args.length = 0 by omega, show ¬args.length < 3 by omega,
      hcm, hid]
  · intro gs args vtype mask vname m tok rest hvm hlc hlen hcm hid
    simp only [ConVehicleCommand, hvm]
    simp [show ¬args.length = 0 by omega, show ¬args.length < 3 by omega,
      hlc, hcm, hid]

/-- C2 witness: the concrete run `town all bogus` from the counterexample,
obtained through the amended theorem. -/
theorem C2_amended_witness :
    ConTown gsA [strN "town", strN "all", strN "bogus"] =
      some ⟨false, false, ["You have specified invalid command."], none, []⟩ :=
  C2_amended_unknown_command.1 gsA [strN "town", strN "all", strN "bogus"]
    [⟨MATCH_ALL, MATCH_NONE, strN "all"⟩] (strN "bogus") []
    (by decide) (by decide) (by decide)

/-! ## Claim C3 (amended) -/

/-- A nonzero byte under `tolowerN` is nonzero. -/
theorem tolowerN_eq_zero (c : Nat) : tolowerN c = 0 ↔ c = 0 := by
  unfold tolowerN
  split_ifs with h <;> (constructor <;> intro h2 <;> simp_all)

/-- If the first string holds a comparison-operator character, no zero byte,
and the second string holds no operator character, the case-insensitive
comparison cannot report equality. -/
theorem stricmp_opchar_ne :
    ∀ (a b : List Nat) (c : Nat), (c = 60 ∨ c = 61 ∨ c = 62) → c ∈ a → 0 ∉ a →
      (∀ d ∈ b, ¬(d = 60 ∨ d = 61 ∨ d = 62)) → stricmp a b ≠ 0 := by
  intro a
  induction a with
  | nil => intro b c _ hc _ _; exact absurd hc (List.not_mem_nil c)
  | cons x a' ih =>
    intro b c hop hc hz hb
    cases b with
    | nil =>
      simp only [stricmp]
      intro h
      have hx0 : x = 0 := by
        have := (tolowerN_eq_zero x).mp (by omega)
        exact this
      exact hz (hx0 ▸ List.mem_cons_self x a')
    | cons y b' =>
      simp only [stricmp]
      split_ifs with he
      · rcases List.mem_cons.mp hc with rfl | hmem
        · exfalso
          have hcy : tolowerN c = c := by unfold tolowerN; split_ifs with h <;> omega
          have hy : tolowerN y = y ∨ 97 ≤ tolowerN y := by
            unfold tolowerN; split_ifs with h <;> omega
          rcases hy with hy | hy
          · exact hb y (List.mem_cons_self y b') (by omega)
          · omega
        · exact ih b' c hop hmem (fun h => hz (List.mem_cons_of_mem _ h))
            (fun d hd => hb d (List.mem_cons_of_mem _ hd))
      · intro h
        have : tolowerN x = tolowerN y := by omega
        exact he this

/-- When the token holds a comparison operator character, the split position
points at it. -/
theorem strcspnOps_hit :
    ∀ tok : List Nat, strcspnOps tok < tok.length →
      ∃ c rest, tok.drop (strcspnOps tok) = c :: rest ∧ (c = 60 ∨ c = 61 ∨ c = 62) := by
  intro tok
  induction tok with
  | nil => intro h; simp [strcspnOps] at h
  | cons x t ih =>
    intro h
    by_cases hx : x = 60 ∨ x = 61 ∨ x = 62
    · refine ⟨x, t, ?_, hx⟩
      simp [strcspnOps, hx]
    · have hs : strcspnOps (x :: t) = 1 + strcspnOps t := by simp [strcspnOps, hx]
      rw [hs]
      have ht : strcspnOps t < t.length := by
        rw [hs] at h; simp at h; omega
      obtain ⟨c, rest, hdrop, hc⟩ := ih ht
      refine ⟨c, rest, ?_, hc⟩
      rw [Nat.add_comm, List.drop_succ_cons]
      exact hdrop

/-- An operator-bearing token matches no non-numeric keyword, so the special
keyword pass of `CheckMatch` never overrides the criterion type. -/
theorem nn_find_none (tok : List Nat) (mask : Nat)
    (hop : strcspnOps tok < tok.length) (hz : 0 ∉ tok) :
    match_nn_info.find?
      (fun e => e.req &&& mask ≠ 0 ∧ stricmp tok e.name = 0) = none := by
  obtain ⟨c, rest, hdrop, hc⟩ := strcspnOps_hit tok hop
  have hmem : c ∈ tok := by
    have : c ∈ tok.drop (strcspnOps tok) := by rw [hdrop]; exact List.mem_cons_self c rest
    exact List.mem_of_mem_drop this
  rw [List.find?_eq_none]
  intro e he
  have htbl : ∀ d ∈ e.name, ¬(d = 60 ∨ d = 61 ∨ d = 62) := by
    have : ∀ e' ∈ match_nn_info, ∀ d ∈ e'.name, ¬(d = 60 ∨ d = 61 ∨ d = 62) := by decide
    exact this e he
  simp only [decide_eq_true_eq, not_and]
  intro _
  exact stricmp_opchar_ne tok e.name c hc hmem hz htbl

/-- When the token holds an operator, the literal produced by the operator
split is strictly shorter than the token. -/
theorem opSplit_len (tok : List Nat) (hop : strcspnOps tok < tok.length) :
    (opSplit tok).2.length < tok.length := by
  obtain ⟨c, rest, hdrop, hc⟩ := strcspnOps_hit tok hop
  have hrest : rest.length + strcspnOps tok + 1 = tok.length := by
    have h1 := congrArg List.length hdrop
    rw [List.length_drop] at h1
    simp at h1
    omega
  simp only [opSplit]
  split
  · rename_i heq
    rw [hdrop] at heq
    simp only [List.cons.injEq] at heq
    obtain ⟨-, h2⟩ := heq
    subst h2
    dsimp only
    omega
  · rename_i heq
    rw [hdrop] at heq
    simp only [List.cons.injEq] at heq
    obtain ⟨-, h2⟩ := heq
    subst h2
    dsimp only
    simp only [List.length_cons] at hrest
    omega
  · rename_i heq
    rw [hdrop] at heq
    simp only [List.cons.injEq] at heq
    obtain ⟨-, h2⟩ := heq
    subst h2
    dsimp only
    simp only [List.length_cons] at hrest
    omega
  · rename_i heq
    rw [hdrop] at heq
    simp only [List.cons.injEq] at heq
    obtain ⟨-, h2⟩ := heq
    subst h2
    dsimp only
    omega
  · rename_i heq
    rw [hdrop] at heq
    simp only [List.cons.injEq] at heq
    obtain ⟨-, h2⟩ := heq
    subst h2
    dsimp only
    simp only [List.length_cons] at hrest
    omega
  · rename_i heq
    rw [hdrop] at heq
    simp only [List.cons.injEq] at heq
    obtain ⟨-, h2⟩ := heq
    subst h2
    dsimp only
    omega
  · rename_i h61 h6061 h6062 h60 h6261 h62
    exfalso
    rcases hc with rfl | rfl | rfl
    · exact h60 rest hdrop
    · exact h61 rest hdrop
    · exact h62 rest hdrop

/-- C3 (amended): for every filter token containing a comparison operator
whose key does not resolve against the numeric-match table, the built
criterion is a generic match whose literal is the substring after the
operator (with the operator recorded as subtype) — strictly shorter than the
original token, not the whole token as the claim states. -/
theorem C3_amended_generic_literal (tok : List Nat) (mask : Nat)
    (hop : strcspnOps tok < tok.length) (hz : 0 ∉ tok)
    (hkey : strcspnOps tok ≠ 0 → (GetMatchType (tok.take (strcspnOps tok))).id = 0) :
    CheckMatch tok mask = some ⟨MATCH_GENERIC, (opSplit tok).1, (opSplit tok).2⟩ ∧
    (opSplit tok).2.length < tok.length := by
  constructor
  · have hfind := nn_find_none tok mask hop hz
    simp only [CheckMatch]
    rw [hfind]
    by_cases hk : strcspnOps tok = 0
    · simp [hk]
    · simp [hk, hkey hk]
  · exact opSplit_len tok hop

/-- C3 witness: the amended theorem applied to the token `zzz=7` under the
town mask. -/
theorem C3_amended_witness :
    CheckMatch (strN "zzz=7") FOR_TOWN =
      some ⟨MATCH_GENERIC, (opSplit (strN "zzz=7")).1, (opSplit (strN "zzz=7")).2⟩ ∧
    (opSplit (strN "zzz=7")).2.length < (strN "zzz=7").length :=
  C3_amended_generic_literal (strN "zzz=7") FOR_TOWN (by decide) (by decide)
    (fun _ => by decide)

/-! ## Claim C4 (amended) -/

/-- C4 (amended): the three generic matchers disagree with the claimed common
semantics.  A vehicle matches iff its unit number equals the parsed literal
(no display-name comparison; an unparsable literal is false).  A town or an
industry matches iff the (owning) town's display name equals the literal
case-insensitively, or its index equals C `atoi` of the literal — which is 0
for a non-numeric literal, so no error but also no "no numeric equality". -/
theorem C4_amended_generic_semantics :
    (∀ (gs : GameState) (v : Vehicle) (st : Int) (lit : List Nat),
      VehicleMatches gs v [⟨MATCH_GENERIC, st, lit⟩] =
        (match GetArgumentInteger lit with
          | none => some false
          | some t => some (decide (v.unitnumber = t % 2 ^ 32)))) ∧
    (∀ (gs : GameState) (t : Town) (st : Int) (lit : List Nat),
      TownMatches gs t [⟨MATCH_GENERIC, st, lit⟩] =
        some (decide (stricmp t.name lit = 0) || decide ((t.index : Int) = atoiN lit))) ∧
    (∀ (i : Industry) (st : Int) (lit : List Nat),
      IndustryMatches i [⟨MATCH_GENERIC, st, lit⟩] =
        some (decide (stricmp i.town_name lit = 0) ||
          decide ((i.index : Int) = atoiN lit))) := by
  refine ⟨?_, ?_, ?_⟩
  · intro gs v st lit
    show VehicleMatches1 gs v ⟨MATCH_GENERIC, st, lit⟩ = _
    show NumericValueSubMatch v.unitnumber MATCH_EQUAL lit = _
    unfold NumericValueSubMatch
    cases h : GetArgumentInteger lit <;> rfl
  · intro gs t st lit
    rfl
  · intro i st lit
    rfl

/-! ## Claim C8 -/

/-- The head of a `dropWhile` result fails the predicate. -/
theorem dropWhile_head_not (p : StringInfo → Bool) :
    ∀ (l : List StringInfo) (r : StringInfo) (rs : List StringInfo),
      l.dropWhile p = r :: rs → p r = false := by
  intro l
  induction l with
  | nil => intro r rs h; exact absurd h (by simp)
  | cons e t ih =>
    intro r rs h
    rw [List.dropWhile_cons] at h
    split at h
    · exact ih r rs h
    · obtain ⟨rfl, -⟩ := List.cons.inj h
      rename_i hp
      exact Bool.not_eq_true _ ▸ (by simpa using hp)

/-- An exact case-insensitive hit at the head of the remaining table returns
the forward-scanned real entry at once, whatever the loop state is. -/
theorem gsiGo_exact (q : List Nat) (inv : StringInfo) (e : StringInfo)
    (post : List StringInfo) (hq : stricmp q e.name = 0) (cmd : StringInfo) (u : Bool) :
    gsiGo q inv (e :: post) cmd u = firstReal inv (e :: post) := by
  simp only [gsiGo]
  rw [if_pos hq]

/-- Scanning entries that are not exact hits only changes the internal loop
state: the run on `pre ++ l` continues as a run on `l` in some state. -/
theorem gsiGo_append (q : List Nat) (inv : StringInfo) :
    ∀ (pre l : List StringInfo) (cmd : StringInfo) (u : Bool),
      (∀ e ∈ pre, stricmp q e.name ≠ 0) →
      ∃ cmd' u', gsiGo q inv (pre ++ l) cmd u = gsiGo q inv l cmd' u' := by
  intro pre
  induction pre with
  | nil => intro l cmd u _; exact ⟨cmd, u, rfl⟩
  | cons e t ih =>
    intro l cmd u h
    have he : stricmp q e.name ≠ 0 := h e (List.mem_cons_self _ _)
    simp only [List.cons_append, gsiGo, List.append_eq]
    rw [if_neg he]
    split_ifs with hg <;>
      exact ih l _ _ (fun x hx => h x (List.mem_cons_of_mem _ hx))

/-- C8: if the query exactly (case-insensitively) equals the name of a table
entry that no earlier entry matches exactly, resolution returns the real
non-alias descriptor that entry denotes, found by scanning forward past alias
sentinels — regardless of what the earlier entries contributed as prefix
matches and regardless of any later entries. -/
theorem C8_exact_match_resolution (q : List Nat) (inv : StringInfo)
    (pre post : List StringInfo) (e r : StringInfo) (rs : List StringInfo)
    (hpre : ∀ e' ∈ pre, stricmp q e'.name ≠ 0)
    (hex : stricmp q e.name = 0)
    (hdrop : (e :: post).dropWhile (fun x => x.id == LIST_ALIAS) = r :: rs) :
    GetStringInfo q inv (pre ++ e :: post) = r ∧ r.id ≠ LIST_ALIAS := by
  constructor
  · unfold GetStringInfo
    obtain ⟨cmd', u', hskip⟩ := gsiGo_append q inv pre (e :: post) inv true hpre
    rw [hskip, gsiGo_exact q inv e post hex]
    unfold firstReal
    rw [hdrop]
  · have h := dropWhile_head_not (fun x => x.id == LIST_ALIAS) (e :: post) r rs hdrop
    simpa using h

/-- C8 witness: resolving the alias name `CENTRE` (case-insensitively) in a
table where the alias entry precedes the real `center` command returns the
real command descriptor. -/
theorem C8_witness :
    GetStringInfo (strN "CENTRE") INVALID_COMMAND_TOWN centreAliasTable =
      ⟨TOWN_CENTER, strN "center", 0, FOR_TOWN⟩ ∧
    (⟨TOWN_CENTER, strN "center", 0, FOR_TOWN⟩ : StringInfo).id ≠ LIST_ALIAS :=
  C8_exact_match_resolution (strN "CENTRE") INVALID_COMMAND_TOWN []
    [⟨TOWN_CENTER, strN "center", 0, FOR_TOWN⟩, ⟨TOWN_COUNT, strN "count", 0, FOR_TOWN⟩]
    ⟨LIST_ALIAS, strN "centre", 0, 0⟩ ⟨TOWN_CENTER, strN "center", 0, FOR_TOWN⟩
    [⟨TOWN_COUNT, strN "count", 0, FOR_TOWN⟩]
    (by simp) (by decide) (by decide)

/-! ## Claim C9 -/

/-- `AliasClosed` restricts to the tail. -/
theorem ac_cons (e : StringInfo) (t : List StringInfo) (h : AliasClosed (e :: t)) :
    AliasClosed t := by
  cases t with
  | nil => rfl
  | cons y t' =>
    unfold AliasClosed at *
    rwa [List.getLast?_cons_cons] at h

/-- Under a closed table the alias scan lands on a real table entry. -/
theorem firstReal_spec (inv : StringInfo) :
    ∀ l : List StringInfo, AliasClosed l → l ≠ [] →
      firstReal inv l ∈ l ∧ (firstReal inv l).id ≠ LIST_ALIAS := by
  intro l
  induction l with
  | nil => intro _ h; exact absurd rfl h
  | cons e t ih =>
    intro hac _
    by_cases he : (e.id == LIST_ALIAS) = true
    · have ht : t ≠ [] := by
        intro h0
        subst h0
        unfold AliasClosed at hac
        simp only [List.getLast?_singleton, Option.all] at hac
        simp only [bne, he] at hac
        simp at hac
      have hfr : firstReal inv (e :: t) = firstReal inv t := by
        unfold firstReal
        rw [List.dropWhile_cons]
        simp only [he, if_true]
      rw [hfr]
      obtain ⟨h1, h2⟩ := ih (ac_cons e t hac) ht
      exact ⟨List.mem_cons_of_mem _ h1, h2⟩
    · have hfr : firstReal inv (e :: t) = e := by
        unfold firstReal
        rw [List.dropWhile_cons]
        simp [he]
      rw [hfr]
      refine ⟨List.mem_cons_self _ _, ?_⟩
      simpa using he

/-- Real descriptors reached through prefix hits carry nonzero ids. -/
theorem prefixHitReals_id_ne (q : List Nat) (inv : StringInfo) :
    ∀ l, AliasClosed l → RealIdsNonzero l →
      ∀ r ∈ prefixHitReals q inv l, r.id ≠ 0 := by
  intro l
  induction l with
  | nil => intro _ _ r hr; simp [prefixHitReals] at hr
  | cons e t ih =>
    intro hac hrz r hr
    simp only [prefixHitReals] at hr
    rcases List.mem_append.mp hr with h1 | h2
    · by_cases hp : str_isprefix q e.name = true
      · rw [if_pos hp] at h1
        simp only [List.mem_singleton] at h1
        subst h1
        obtain ⟨hmem, hna⟩ := firstReal_spec inv (e :: t) hac (by simp)
        exact hrz _ hmem hna
      · rw [if_neg hp] at h1
        simp at h1
    · exact ih (ac_cons e t hac)
        (fun x hx hna => hrz x (List.mem_cons_of_mem _ hx) hna) r h2

/-- Once the unique-prefix flag is cleared, and no exact hit remains, the
resolver returns the invalid record. -/
theorem gsiGo_uniq_false (q : List Nat) (inv : StringInfo) (hinv : inv.id = 0) :
    ∀ l, NoExact q l → ∀ cmd, gsiGo q inv l cmd false = inv := by
  intro l
  induction l with
  | nil => intro _ cmd; simp [gsiGo]
  | cons e t ih =>
    intro hne cmd
    simp only [gsiGo]
    rw [if_neg (hne e (List.mem_cons_self _ _))]
    split_ifs with hg <;>
      exact ih (fun x hx => hne x (List.mem_cons_of_mem _ hx)) _

/-- If every remaining prefix hit denotes the candidate already held, the
resolver keeps and returns that candidate. -/
theorem gsiGo_keep (q : List Nat) (inv : StringInfo) (hinv : inv.id = 0) :
    ∀ l cmd, NoExact q l → cmd.id ≠ 0 →
      (∀ r ∈ prefixHitReals q inv l, r.id = cmd.id) →
      gsiGo q inv l cmd true = cmd := by
  intro l
  induction l with
  | nil => intro cmd _ hc _; simp [gsiGo, hc]
  | cons e t ih =>
    intro cmd hne hc hall
    simp only [gsiGo]
    rw [if_neg (hne e (List.mem_cons_self _ _))]
    split_ifs with hg
    · exfalso
      have hmem : firstReal inv (e :: t) ∈ prefixHitReals q inv (e :: t) := by
        simp only [prefixHitReals, if_pos hg.1]
        exact List.mem_append_left _ (List.mem_singleton_self _)
      exact hg.2 (hall _ hmem)
    · exact ih cmd (fun x hx => hne x (List.mem_cons_of_mem _ hx)) hc
        (fun r hr => hall r (by
          simp only [prefixHitReals]
          exact List.mem_append_right _ hr))

/-- With a candidate held and some remaining prefix hit denoting a different
real descriptor, the resolver ends ambiguous (invalid). -/
theorem gsiGo_amb (q : List Nat) (inv : StringInfo) (hinv : inv.id = 0) :
    ∀ l cmd, NoExact q l → cmd.id ≠ 0 →
      (∃ r ∈ prefixHitReals q inv l, r.id ≠ cmd.id) →
      gsiGo q inv l cmd true = inv := by
  intro l
  induction l with
  | nil => intro cmd _ _ hex; simp [prefixHitReals] at hex
  | cons e t ih =>
    intro cmd hne hc hex
    simp only [gsiGo]
    rw [if_neg (hne e (List.mem_cons_self _ _))]
    by_cases hp : str_isprefix q e.name = true
    · by_cases hd : (firstReal inv (e :: t)).id = cmd.id
      · rw [if_neg (fun hg => hg.2 hd)]
        obtain ⟨r, hrmem, hrne⟩ := hex
        have hrt : r ∈ prefixHitReals q inv t := by
          simp only [prefixHitReals, if_pos hp] at hrmem
          rcases List.mem_append.mp hrmem with h1 | h2
          · simp only [List.mem_singleton] at h1
            subst h1
            exact absurd hd hrne
          · exact h2
        exact ih cmd (fun x hx => hne x (List.mem_cons_of_mem _ hx)) hc ⟨r, hrt, hrne⟩
      · rw [if_pos ⟨hp, hd⟩]
        have hu : (if cmd.id ≠ 0 then false else true) = false := by simp [hc]
        rw [hu]
        exact gsiGo_uniq_false q inv hinv t
          (fun x hx => hne x (List.mem_cons_of_mem _ hx)) _
    · rw [if_neg (fun hg => hp hg.1)]
      have hex' : ∃ r ∈ prefixHitReals q inv t, r.id ≠ cmd.id := by
        obtain ⟨r, hrmem, hrne⟩ := hex
        simp only [prefixHitReals, if_neg hp, List.nil_append] at hrmem
        exact ⟨r, hrmem, hrne⟩
      exact ih cmd (fun x hx => hne x (List.mem_cons_of_mem _ hx)) hc hex'

/-- With no candidate yet and prefix hits denoting two different real
descriptors, the resolver ends ambiguous (invalid). -/
theorem gsiGo_amb0 (q : List Nat) (inv : StringInfo) (hinv : inv.id = 0) :
    ∀ l cmd, NoExact q l → AliasClosed l → RealIdsNonzero l → cmd.id = 0 →
      (∃ r1 ∈ prefixHitReals q inv l, ∃ r2 ∈ prefixHitReals q inv l, r1.id ≠ r2.id) →
      gsiGo q inv l cmd true = inv := by
  intro l
  induction l with
  | nil => intro cmd _ _ _ _ hex; simp [prefixHitReals] at hex
  | cons e t ih =>
    intro cmd hne hac hrz hc hex
    simp only [gsiGo]
    rw [if_neg (hne e (List.mem_cons_self _ _))]
    by_cases hp : str_isprefix q e.name = true
    · have hr0 : (firstReal inv (e :: t)).id ≠ 0 := by
        obtain ⟨hmem, hna⟩ := firstReal_spec inv (e :: t) hac (by simp)
        exact hrz _ hmem hna
      rw [if_pos ⟨hp, by rw [hc]; exact hr0⟩]
      have hu : (if cmd.id ≠ 0 then false else true) = true := by simp [hc]
      rw [hu]
      by_cases hone : ∀ r ∈ prefixHitReals q inv t, r.id = (firstReal inv (e :: t)).id
      · exfalso
        obtain ⟨r1, h1, r2, h2, hd⟩ := hex
        have hall : ∀ r ∈ prefixHitReals q inv (e :: t),
            r.id = (firstReal inv (e :: t)).id := by
          intro r hr
          simp only [prefixHitReals, if_pos hp] at hr
          rcases List.mem_append.mp hr with hx | hx
          · simp only [List.mem_singleton] at hx
            subst hx
            rfl
          · exact hone r hx
        exact hd ((hall r1 h1).trans (hall r2 h2).symm)
      · push_neg at hone
        obtain ⟨r, hrt, hrne⟩ := hone
        exact gsiGo_amb q inv hinv t (firstReal inv (e :: t))
          (fun x hx => hne x (List.mem_cons_of_mem _ hx)) hr0 ⟨r, hrt, hrne⟩
    · rw [if_neg (fun hg => hp hg.1)]
      have hex' : ∃ r1 ∈ prefixHitReals q inv t, ∃ r2 ∈ prefixHitReals q inv t,
          r1.id ≠ r2.id := by
        obtain ⟨r1, h1, r2, h2, hd⟩ := hex
        simp only [prefixHitReals, if_neg hp, List.nil_append] at h1 h2
        exact ⟨r1, h1, r2, h2, hd⟩
      exact ih cmd (fun x hx => hne x (List.mem_cons_of_mem _ hx)) (ac_cons e t hac)
        (fun x hx hna => hrz x (List.mem_cons_of_mem _ hx) hna) hc hex'

/-- All prefix hits denoting one real descriptor make the resolver return the
first hit's real descriptor. -/
theorem gsiGo_first (q : List Nat) (inv : StringInfo) (hinv : inv.id = 0) :
    ∀ l cmd, NoExact q l → AliasClosed l → RealIdsNonzero l → cmd.id = 0 →
      ∀ h0 hs, prefixHitReals q inv l = h0 :: hs →
        (∀ r ∈ hs, r.id = h0.id) →
        gsiGo q inv l cmd true = h0 := by
  intro l
  induction l with
  | nil => intro cmd _ _ _ _ h0 hs hH _; simp [prefixHitReals] at hH
  | cons e t ih =>
    intro cmd hne hac hrz hc h0 hs hH hsame
    simp only [gsiGo]
    rw [if_neg (hne e (List.mem_cons_self _ _))]
    by_cases hp : str_isprefix q e.name = true
    · have hH' : firstReal inv (e :: t) :: prefixHitReals q inv t = h0 :: hs := by
        simpa [prefixHitReals, if_pos hp] using hH
      obtain ⟨he0, hes⟩ := List.cons.inj hH'
      have hr0 : (firstReal inv (e :: t)).id ≠ 0 := by
        obtain ⟨hmem, hna⟩ := firstReal_spec inv (e :: t) hac (by simp)
        exact hrz _ hmem hna
      rw [if_pos ⟨hp, by rw [hc]; exact hr0⟩]
      have hu : (if cmd.id ≠ 0 then false else true) = true := by simp [hc]
      rw [hu, he0]
      exact gsiGo_keep q inv hinv t h0
        (fun x hx => hne x (List.mem_cons_of_mem _ hx)) (he0 ▸ hr0)
        (fun r hr => hsame r (hes ▸ hr))
    · rw [if_neg (fun hg => hp hg.1)]
      have hH' : prefixHitReals q inv t = h0 :: hs := by
        simpa [prefixHitReals, if_neg hp] using hH
      exact ih cmd (fun x hx => hne x (List.mem_cons_of_mem _ hx)) (ac_cons e t hac)
        (fun x hx hna => hrz x (List.mem_cons_of_mem _ hx) hna) hc h0 hs hH' hsame

/-- C9: for a query with no exact table hit, if all entries of which the
query is a case-insensitive prefix denote the same real descriptor, the
resolver returns that descriptor (the first hit's real entry); prefix hits
denoting two or more distinct real descriptors make it return the invalid
record. -/
theorem C9_prefix_resolution (q : List Nat) (inv : StringInfo) (arr : List StringInfo)
    (hinv : inv.id = 0) (hne : NoExact q arr) (hac : AliasClosed arr)
    (hrz : RealIdsNonzero arr) :
    (∀ h0 hs, prefixHitReals q inv arr = h0 :: hs →
      (∀ r ∈ hs, r.id = h0.id) → GetStringInfo q inv arr = h0) ∧
    (∀ r1 ∈ prefixHitReals q inv arr, ∀ r2 ∈ prefixHitReals q inv arr,
      r1.id ≠ r2.id → GetStringInfo q inv arr = inv) := by
  constructor
  · intro h0 hs hH hsame
    exact gsiGo_first q inv hinv arr inv hne hac hrz hinv h0 hs hH hsame
  · intro r1 h1 r2 h2 hd
    exact gsiGo_amb0 q inv hinv arr inv hne hac hrz hinv ⟨r1, h1, r2, h2, hd⟩

/-- C9 witness: against the `{ship, show}` table, `sh` is ambiguous and
resolves to the invalid record, while `shi` uniquely resolves to `ship`. -/
theorem C9_witness :
    GetStringInfo (strN "sh") INVALID_COMMAND_VEHICLE shipShowTable =
      INVALID_COMMAND_VEHICLE ∧
    GetStringInfo (strN "shi") INVALID_COMMAND_VEHICLE shipShowTable =
      ⟨1, strN "ship", 0, FOR_SHIP⟩ := by
  constructor
  · exact (C9_prefix_resolution (strN "sh") INVALID_COMMAND_VEHICLE shipShowTable rfl
      (by decide) (by decide) (by decide)).2
      ⟨1, strN "ship", 0, FOR_SHIP⟩ (by decide)
      ⟨2, strN "show", 0, FOR_SHIP⟩ (by decide) (by decide)
  · exact (C9_prefix_resolution (strN "shi") INVALID_COMMAND_VEHICLE shipShowTable rfl
      (by decide) (by decide) (by decide)).1
      ⟨1, strN "ship", 0, FOR_SHIP⟩ [] (by decide) (by decide)

end TTD
